import Mathlib

/-!
Verification of the parser front-end of the `oil` shell repository:
the Id/Kind registry (`core/id_kind.py`), the word AST and its
classification methods (`core/word_node.py`), and the `[[ ... ]]`
boolean-expression parser (`osh/bool_parse.py`).

The Python source is shallowly embedded: Ids and Kinds are the integers
the registry assigns, Python dicts are association lists with
replace-or-append update, fallible code returns `Except`, and the
parser's mutable state is threaded explicitly.  Recursion of the
recursive-descent parser is bounded by explicit fuel.
-/

namespace Osh

/-- `OperandType = util.Enum('OperandType', 'Undefined Path Int Str Other')`
from `core/id_kind.py`. -/
inductive OperandType where
  | Undefined
  | Path
  | Int
  | Str
  | Other
deriving DecidableEq, Repr

/-- Python `dict` update (`d[k] = v`): replace the binding if the key is
present, otherwise append it. -/
def dictSet {α β : Type} [DecidableEq α] (l : List (α × β)) (k : α) (v : β) :
    List (α × β) :=
  if l.any (fun p => p.1 = k) then
    l.map (fun p => if p.1 = k then (k, v) else p)
  else
    l ++ [(k, v)]

/-- Python `dict` read (`d[k]`), as an `Option` (`none` models `KeyError`). -/
def dictGet {α β : Type} [DecidableEq α] (l : List (α × β)) (k : α) :
    Option β :=
  (l.find? (fun p => p.1 = k)).map Prod.snd

/-- `class IdSpec` from `core/id_kind.py`.  `id_attrs` and `kind_attrs`
model the attributes that `setattr(self.id_enum, ...)` and
`setattr(self.kind_enum, ...)` install on the `Id` and `Kind` classes;
`token_names` is `_ID_NAMES`, `kind_lookup` is `_ID_TO_KIND`, and
`bool_ops` is `BOOL_OPS`. -/
structure IdSpec where
  id_attrs : List (String × Nat)
  kind_attrs : List (String × Nat)
  token_names : List (Nat × String)
  kind_lookup : List (Nat × Nat)
  kind_sizes : List Nat
  lexer_pairs : List (Nat × List (Bool × String × Nat))
  bool_ops : List (Nat × OperandType)
  token_index : Nat
  kind_index : Nat
deriving DecidableEq

/-- The state of `IdSpec.__init__` (empty tables, both counters at 0). -/
def IdSpec.init : IdSpec := ⟨[], [], [], [], [], [], [], 0, 0⟩

/-- `IdSpec._AddId`: bump the shared token counter, install the Id
attribute, and record name and Kind of the new integer Id. -/
def IdSpec.AddId (spec : IdSpec) (token_name : String) : IdSpec :=
  let ti := spec.token_index + 1
  { spec with
    token_index := ti
    id_attrs := dictSet spec.id_attrs token_name ti
    token_names := dictSet spec.token_names ti token_name
    kind_lookup := dictSet spec.kind_lookup ti spec.kind_index }

/-- `IdSpec._AddKind`: install the Kind attribute at the current kind
index, then bump the kind counter. -/
def IdSpec.AddKindName (spec : IdSpec) (kind_name : String) : IdSpec :=
  { spec with
    kind_attrs := dictSet spec.kind_attrs kind_name spec.kind_index
    kind_index := spec.kind_index + 1 }

/-- `IdSpec.AddKind`: register the Ids `kind_name_tok` for each token
name, then register the Kind itself. -/
def IdSpec.AddKind (spec : IdSpec) (kind_name : String)
    (tokens : List String) : IdSpec :=
  let spec := tokens.foldl
    (fun sp name => sp.AddId (kind_name ++ "_" ++ name)) spec
  let spec := spec.AddKindName kind_name
  { spec with kind_sizes := spec.kind_sizes ++ [tokens.length] }

/-- `IdSpec.AddKindPairs`: like `AddKind`, but each token also carries a
literal lexer pattern, recorded in `lexer_pairs` under the Kind's index. -/
def IdSpec.AddKindPairs (spec : IdSpec) (kind_name : String)
    (pairs : List (String × String)) : IdSpec :=
  let step := fun (acc : IdSpec × List (Bool × String × Nat))
      (pr : String × String) =>
    let sp := acc.1.AddId (kind_name ++ "_" ++ pr.1)
    (sp, acc.2 ++ [(false, pr.2, sp.token_index)])
  let acc := pairs.foldl step (spec, [])
  let spec := acc.1
  let spec := { spec with
    lexer_pairs := dictSet spec.lexer_pairs spec.kind_index acc.2 }
  let spec := spec.AddKindName kind_name
  { spec with kind_sizes := spec.kind_sizes ++ [pairs.length] }

/-- `IdSpec.AddBoolOp`: record the operand type of a boolean operator in
the `BOOL_OPS` table. -/
def IdSpec.AddBoolOp (spec : IdSpec) (id_ : Nat) (arg_type : OperandType) :
    IdSpec :=
  { spec with bool_ops := dictSet spec.bool_ops id_ arg_type }

/-- `IdSpec.AddBoolKind`: register the Ids of one boolean Kind.  The
argument mirrors the source's dict of `OperandType -> (name, pattern)`
pairs, iterated in insertion order; each new Id is also entered into
`BOOL_OPS` with its operand type. -/
def IdSpec.AddBoolKind (spec : IdSpec) (kind_name : String)
    (arg_type_pairs : List (OperandType × List (String × String))) : IdSpec :=
  let stepPair := fun (arg_type : OperandType)
      (acc : IdSpec × List (Bool × String × Nat)) (pr : String × String) =>
    let sp := acc.1.AddId (kind_name ++ "_" ++ pr.1)
    let sp := sp.AddBoolOp sp.token_index arg_type
    (sp, acc.2 ++ [(false, pr.2, sp.token_index)])
  let stepGroup := fun (acc : IdSpec × List (Bool × String × Nat) × Nat)
      (grp : OperandType × List (String × String)) =>
    let res := grp.2.foldl (stepPair grp.1) (acc.1, acc.2.1)
    (res.1, res.2, acc.2.2 + grp.2.length)
  let acc := arg_type_pairs.foldl stepGroup (spec, [], 0)
  let spec := acc.1
  let spec := { spec with
    lexer_pairs := dictSet spec.lexer_pairs spec.kind_index acc.2.1 }
  let spec := spec.AddKindName kind_name
  { spec with kind_sizes := spec.kind_sizes ++ [acc.2.2] }

/-- `UNARY_FILE_CHARS = tuple('abcdefghLprsStuwxOGN')`. -/
def UNARY_FILE_CHARS : List String :=
  ["a", "b", "c", "d", "e", "f", "g", "h", "L", "p", "r", "s", "S", "t",
   "u", "w", "x", "O", "G", "N"]

/-- `_Dash(strs)`: pair each operator letter with its `-letter` spelling. -/
def Dash (strs : List String) : List (String × String) :=
  strs.map (fun s => (s, "-" ++ s))

/-- `_AddKinds(spec)`: the fixed registration order of all non-boolean
Kinds and their Ids. -/
def AddKinds (spec : IdSpec) : IdSpec :=
  let spec := spec.AddKind "Undefined" ["Tok"]
  let spec := spec.AddKind "Unknown" ["Tok"]
  let spec := spec.AddKind "Eof" ["Real", "RParen", "Backtick"]
  let spec := spec.AddKind "Ignored" ["LineCont", "Space", "Comment"]
  let spec := spec.AddKind "WS" ["Space"]
  let spec := spec.AddKind "Lit" [
    "Chars", "VarLike", "Other", "EscapedChar",
    "LBrace", "RBrace", "Comma",
    "DRightBracket",
    "Tilde",
    "Pound",
    "Slash", "Percent",
    "Digits",
    "At",
    "ArithVarLike"]
  let spec := spec.AddKind "Op" [
    "Newline", "Amp", "Pipe", "PipeAmp", "DAmp", "DPipe", "Semi", "DSemi",
    "LParen", "RParen", "DLeftParen", "DRightParen"]
  let spec := spec.AddKind "Redir" [
    "Less", "Great", "DLess", "TLess", "DGreat", "GreatAnd", "LessAnd",
    "DLessDash", "LessGreat", "Clobber"]
  let spec := spec.AddKind "Left" [
    "DoubleQuote", "SingleQuote", "Backtick", "CommandSub", "VarSub",
    "ArithSub", "ArithSub2", "DollarDoubleQuote", "DollarSingleQuote",
    "ProcSubIn", "ProcSubOut"]
  let spec := spec.AddKind "Right" [
    "DoubleQuote", "SingleQuote", "Backtick", "CommandSub", "VarSub",
    "ArithSub", "DollarDoubleQuote", "DollarSingleQuote",
    "Subshell", "FuncDef", "CasePat", "ArrayLiteral"]
  let spec := spec.AddKind "VSub" [
    "Name", "Number", "Bang", "At", "Pound", "Dollar", "Amp", "Star",
    "Hyphen", "QMark"]
  let spec := spec.AddKindPairs "VTest" [
    ("ColonHyphen", ":-"), ("Hyphen", "-"), ("ColonEquals", ":="),
    ("Equals", "="), ("ColonQMark", ":?"), ("QMark", "?"),
    ("ColonPlus", ":+"), ("Plus", "+")]
  let spec := spec.AddKindPairs "VOp1" [
    ("Percent", "%"), ("DPercent", "%%"), ("Pound", "#"), ("DPound", "##"),
    ("Caret", "^"), ("DCaret", "^^"), ("Comma", ","), ("DComma", ",,")]
  let spec := spec.AddKindPairs "VOp2" [
    ("Slash", "/"), ("Colon", ":"), ("LBracket", "["), ("RBracket", "]")]
  let spec := spec.AddKindPairs "Arith" [
    ("Semi", ";"), ("Comma", ","),
    ("Plus", "+"), ("Minus", "-"), ("Star", "*"), ("Slash", "/"),
    ("Percent", "%"),
    ("DPlus", "++"), ("DMinus", "--"), ("DStar", "**"),
    ("LParen", "("), ("RParen", ")"),
    ("LBracket", "["), ("RBracket", "]"),
    ("RBrace", "\x7d"),
    ("QMark", "?"), ("Colon", ":"),
    ("LessEqual", "<="), ("Less", "<"), ("GreatEqual", ">="),
    ("Great", ">"), ("DEqual", "=="), ("NEqual", "!="),
    ("DAmp", "&&"), ("DPipe", "||"), ("Bang", "!"),
    ("DGreat", ">>"), ("DLess", "<<"),
    ("Amp", "&"), ("Pipe", "|"), ("Caret", "^"), ("Tilde", "~"),
    ("Equal", "="),
    ("PlusEqual", "+="), ("MinusEqual", "-="), ("StarEqual", "*="),
    ("SlashEqual", "/="), ("PercentEqual", "%="),
    ("DGreatEqual", ">>="), ("DLessEqual", "<<="),
    ("AmpEqual", "&="), ("PipeEqual", "|="),
    ("CaretEqual", "^=")]
  let spec := spec.AddKind "Node" [
    "PostDPlus", "PostDMinus", "UnaryPlus", "UnaryMinus", "ArithVar",
    "Command", "Assign", "AndOr", "Block", "Subshell", "Fork",
    "FuncDef", "ForEach", "ForExpr", "NoOp",
    "UnaryExpr", "BinaryExpr", "TernaryExpr", "FuncCall", "ConstInt"]
  let spec := spec.AddKind "Word" ["Compound"]
  let spec := spec.AddKind "KW" [
    "DLeftBracket", "Bang",
    "For", "While", "Until", "Do", "Done", "In", "Case",
    "Esac", "If", "Fi", "Then", "Else", "Elif", "Function"]
  spec.AddKind "Assign" ["Declare", "Export", "Local", "Readonly"]

/-- Read an integer Id attribute off the `Id` class, as
`getattr(Id, name)` would (0 is never an assigned Id). -/
def IdSpec.idOf (spec : IdSpec) (name : String) : Nat :=
  (dictGet spec.id_attrs name).getD 0

/-- `_AddBoolKinds(spec)`: register the two boolean Kinds, then record
operand types for the logical connectives and the `<` / `>` puns. -/
def AddBoolKinds (spec : IdSpec) : IdSpec :=
  let spec := spec.AddBoolKind "BoolUnary" [
    (OperandType.Str, Dash ["z", "n"]),
    (OperandType.Other, Dash ["o", "v", "R"]),
    (OperandType.Path, Dash UNARY_FILE_CHARS)]
  let spec := spec.AddBoolKind "BoolBinary" [
    (OperandType.Str, [("Equal", "="), ("DEqual", "=="), ("NEqual", "!="),
                       ("EqualTilde", "=~")]),
    (OperandType.Path, Dash ["ef", "nt", "ot"]),
    (OperandType.Int, Dash ["eq", "ne", "gt", "ge", "lt", "le"])]
  let spec := spec.AddBoolOp (spec.idOf "Op_DAmp") OperandType.Undefined
  let spec := spec.AddBoolOp (spec.idOf "Op_DPipe") OperandType.Undefined
  let spec := spec.AddBoolOp (spec.idOf "KW_Bang") OperandType.Undefined
  let spec := spec.AddBoolOp (spec.idOf "Redir_Less") OperandType.Str
  spec.AddBoolOp (spec.idOf "Redir_Great") OperandType.Str

/-- `ID_SPEC = IdSpec(_ID_NAMES, _ID_TO_KIND, BOOL_OPS)` followed by
`_AddKinds(ID_SPEC); _AddBoolKinds(ID_SPEC)`. -/
def ID_SPEC : IdSpec := AddBoolKinds (AddKinds IdSpec.init)

/-- `getattr(Id, name)` on the fully built registry. -/
def IdOf (name : String) : Nat := ID_SPEC.idOf name

/-- `getattr(Kind, name)` on the fully built registry. -/
def KindOf (name : String) : Nat :=
  (dictGet ID_SPEC.kind_attrs name).getD 0

/-- `IdName(t)`: `_ID_NAMES[t]`. -/
def IdName (t : Nat) : Option String := dictGet ID_SPEC.token_names t

/-- `LookupKind(id_)`: `_ID_TO_KIND[id_]`.  The Python dict access raises
`KeyError` on an unregistered integer; we totalize with Kind
`Undefined` (= 0).  Theorems that quantify over arbitrary words restrict
to registered Ids (spec invariant: every lexer-produced Id has a Kind),
where the two behaviours agree. -/
def LookupKind (id_ : Nat) : Nat :=
  (dictGet ID_SPEC.kind_lookup id_).getD 0

/-- The frozen contents of `ID_SPEC`, written out literally.  The theorem
`ID_SPEC_eq` proves by kernel computation that running the registration
process of `core/id_kind.py` produces exactly these tables; later proofs
compute over this literal instead of re-running the construction. -/
def ID_TABLES : IdSpec :=
  ⟨[("Undefined_Tok", 1),
 ("Unknown_Tok", 2),
 ("Eof_Real", 3),
 ("Eof_RParen", 4),
 ("Eof_Backtick", 5),
 ("Ignored_LineCont", 6),
 ("Ignored_Space", 7),
 ("Ignored_Comment", 8),
 ("WS_Space", 9),
 ("Lit_Chars", 10),
 ("Lit_VarLike", 11),
 ("Lit_Other", 12),
 ("Lit_EscapedChar", 13),
 ("Lit_LBrace", 14),
 ("Lit_RBrace", 15),
 ("Lit_Comma", 16),
 ("Lit_DRightBracket", 17),
 ("Lit_Tilde", 18),
 ("Lit_Pound", 19),
 ("Lit_Slash", 20),
 ("Lit_Percent", 21),
 ("Lit_Digits", 22),
 ("Lit_At", 23),
 ("Lit_ArithVarLike", 24),
 ("Op_Newline", 25),
 ("Op_Amp", 26),
 ("Op_Pipe", 27),
 ("Op_PipeAmp", 28),
 ("Op_DAmp", 29),
 ("Op_DPipe", 30),
 ("Op_Semi", 31),
 ("Op_DSemi", 32),
 ("Op_LParen", 33),
 ("Op_RParen", 34),
 ("Op_DLeftParen", 35),
 ("Op_DRightParen", 36),
 ("Redir_Less", 37),
 ("Redir_Great", 38),
 ("Redir_DLess", 39),
 ("Redir_TLess", 40),
 ("Redir_DGreat", 41),
 ("Redir_GreatAnd", 42),
 ("Redir_LessAnd", 43),
 ("Redir_DLessDash", 44),
 ("Redir_LessGreat", 45),
 ("Redir_Clobber", 46),
 ("Left_DoubleQuote", 47),
 ("Left_SingleQuote", 48),
 ("Left_Backtick", 49),
 ("Left_CommandSub", 50),
 ("Left_VarSub", 51),
 ("Left_ArithSub", 52),
 ("Left_ArithSub2", 53),
 ("Left_DollarDoubleQuote", 54),
 ("Left_DollarSingleQuote", 55),
 ("Left_ProcSubIn", 56),
 ("Left_ProcSubOut", 57),
 ("Right_DoubleQuote", 58),
 ("Right_SingleQuote", 59),
 ("Right_Backtick", 60),
 ("Right_CommandSub", 61),
 ("Right_VarSub", 62),
 ("Right_ArithSub", 63),
 ("Right_DollarDoubleQuote", 64),
 ("Right_DollarSingleQuote", 65),
 ("Right_Subshell", 66),
 ("Right_FuncDef", 67),
 ("Right_CasePat", 68),
 ("Right_ArrayLiteral", 69),
 ("VSub_Name", 70),
 ("VSub_Number", 71),
 ("VSub_Bang", 72),
 ("VSub_At", 73),
 ("VSub_Pound", 74),
 ("VSub_Dollar", 75),
 ("VSub_Amp", 76),
 ("VSub_Star", 77),
 ("VSub_Hyphen", 78),
 ("VSub_QMark", 79),
 ("VTest_ColonHyphen", 80),
 ("VTest_Hyphen", 81),
 ("VTest_ColonEquals", 82),
 ("VTest_Equals", 83),
 ("VTest_ColonQMark", 84),
 ("VTest_QMark", 85),
 ("VTest_ColonPlus", 86),
 ("VTest_Plus", 87),
 ("VOp1_Percent", 88),
 ("VOp1_DPercent", 89),
 ("VOp1_Pound", 90),
 ("VOp1_DPound", 91),
 ("VOp1_Caret", 92),
 ("VOp1_DCaret", 93),
 ("VOp1_Comma", 94),
 ("VOp1_DComma", 95),
 ("VOp2_Slash", 96),
 ("VOp2_Colon", 97),
 ("VOp2_LBracket", 98),
 ("VOp2_RBracket", 99),
 ("Arith_Semi", 100),
 ("Arith_Comma", 101),
 ("Arith_Plus", 102),
 ("Arith_Minus", 103),
 ("Arith_Star", 104),
 ("Arith_Slash", 105),
 ("Arith_Percent", 106),
 ("Arith_DPlus", 107),
 ("Arith_DMinus", 108),
 ("Arith_DStar", 109),
 ("Arith_LParen", 110),
 ("Arith_RParen", 111),
 ("Arith_LBracket", 112),
 ("Arith_RBracket", 113),
 ("Arith_RBrace", 114),
 ("Arith_QMark", 115),
 ("Arith_Colon", 116),
 ("Arith_LessEqual", 117),
 ("Arith_Less", 118),
 ("Arith_GreatEqual", 119),
 ("Arith_Great", 120),
 ("Arith_DEqual", 121),
 ("Arith_NEqual", 122),
 ("Arith_DAmp", 123),
 ("Arith_DPipe", 124),
 ("Arith_Bang", 125),
 ("Arith_DGreat", 126),
 ("Arith_DLess", 127),
 ("Arith_Amp", 128),
 ("Arith_Pipe", 129),
 ("Arith_Caret", 130),
 ("Arith_Tilde", 131),
 ("Arith_Equal", 132),
 ("Arith_PlusEqual", 133),
 ("Arith_MinusEqual", 134),
 ("Arith_StarEqual", 135),
 ("Arith_SlashEqual", 136),
 ("Arith_PercentEqual", 137),
 ("Arith_DGreatEqual", 138),
 ("Arith_DLessEqual", 139),
 ("Arith_AmpEqual", 140),
 ("Arith_PipeEqual", 141),
 ("Arith_CaretEqual", 142),
 ("Node_PostDPlus", 143),
 ("Node_PostDMinus", 144),
 ("Node_UnaryPlus", 145),
 ("Node_UnaryMinus", 146),
 ("Node_ArithVar", 147),
 ("Node_Command", 148),
 ("Node_Assign", 149),
 ("Node_AndOr", 150),
 ("Node_Block", 151),
 ("Node_Subshell", 152),
 ("Node_Fork", 153),
 ("Node_FuncDef", 154),
 ("Node_ForEach", 155),
 ("Node_ForExpr", 156),
 ("Node_NoOp", 157),
 ("Node_UnaryExpr", 158),
 ("Node_BinaryExpr", 159),
 ("Node_TernaryExpr", 160),
 ("Node_FuncCall", 161),
 ("Node_ConstInt", 162),
 ("Word_Compound", 163),
 ("KW_DLeftBracket", 164),
 ("KW_Bang", 165),
 ("KW_For", 166),
 ("KW_While", 167),
 ("KW_Until", 168),
 ("KW_Do", 169),
 ("KW_Done", 170),
 ("KW_In", 171),
 ("KW_Case", 172),
 ("KW_Esac", 173),
 ("KW_If", 174),
 ("KW_Fi", 175),
 ("KW_Then", 176),
 ("KW_Else", 177),
 ("KW_Elif", 178),
 ("KW_Function", 179),
 ("Assign_Declare", 180),
 ("Assign_Export", 181),
 ("Assign_Local", 182),
 ("Assign_Readonly", 183),
 ("BoolUnary_z", 184),
 ("BoolUnary_n", 185),
 ("BoolUnary_o", 186),
 ("BoolUnary_v", 187),
 ("BoolUnary_R", 188),
 ("BoolUnary_a", 189),
 ("BoolUnary_b", 190),
 ("BoolUnary_c", 191),
 ("BoolUnary_d", 192),
 ("BoolUnary_e", 193),
 ("BoolUnary_f", 194),
 ("BoolUnary_g", 195),
 ("BoolUnary_h", 196),
 ("BoolUnary_L", 197),
 ("BoolUnary_p", 198),
 ("BoolUnary_r", 199),
 ("BoolUnary_s", 200),
 ("BoolUnary_S", 201),
 ("BoolUnary_t", 202),
 ("BoolUnary_u", 203),
 ("BoolUnary_w", 204),
 ("BoolUnary_x", 205),
 ("BoolUnary_O", 206),
 ("BoolUnary_G", 207),
 ("BoolUnary_N", 208),
 ("BoolBinary_Equal", 209),
 ("BoolBinary_DEqual", 210),
 ("BoolBinary_NEqual", 211),
 ("BoolBinary_EqualTilde", 212),
 ("BoolBinary_ef", 213),
 ("BoolBinary_nt", 214),
 ("BoolBinary_ot", 215),
 ("BoolBinary_eq", 216),
 ("BoolBinary_ne", 217),
 ("BoolBinary_gt", 218),
 ("BoolBinary_ge", 219),
 ("BoolBinary_lt", 220),
 ("BoolBinary_le", 221)],
   [("Undefined", 0),
 ("Unknown", 1),
 ("Eof", 2),
 ("Ignored", 3),
 ("WS", 4),
 ("Lit", 5),
 ("Op", 6),
 ("Redir", 7),
 ("Left", 8),
 ("Right", 9),
 ("VSub", 10),
 ("VTest", 11),
 ("VOp1", 12),
 ("VOp2", 13),
 ("Arith", 14),
 ("Node", 15),
 ("Word", 16),
 ("KW", 17),
 ("Assign", 18),
 ("BoolUnary", 19),
 ("BoolBinary", 20)],
   [(1, "Undefined_Tok"),
 (2, "Unknown_Tok"),
 (3, "Eof_Real"),
 (4, "Eof_RParen"),
 (5, "Eof_Backtick"),
 (6, "Ignored_LineCont"),
 (7, "Ignored_Space"),
 (8, "Ignored_Comment"),
 (9, "WS_Space"),
 (10, "Lit_Chars"),
 (11, "Lit_VarLike"),
 (12, "Lit_Other"),
 (13, "Lit_EscapedChar"),
 (14, "Lit_LBrace"),
 (15, "Lit_RBrace"),
 (16, "Lit_Comma"),
 (17, "Lit_DRightBracket"),
 (18, "Lit_Tilde"),
 (19, "Lit_Pound"),
 (20, "Lit_Slash"),
 (21, "Lit_Percent"),
 (22, "Lit_Digits"),
 (23, "Lit_At"),
 (24, "Lit_ArithVarLike"),
 (25, "Op_Newline"),
 (26, "Op_Amp"),
 (27, "Op_Pipe"),
 (28, "Op_PipeAmp"),
 (29, "Op_DAmp"),
 (30, "Op_DPipe"),
 (31, "Op_Semi"),
 (32, "Op_DSemi"),
 (33, "Op_LParen"),
 (34, "Op_RParen"),
 (35, "Op_DLeftParen"),
 (36, "Op_DRightParen"),
 (37, "Redir_Less"),
 (38, "Redir_Great"),
 (39, "Redir_DLess"),
 (40, "Redir_TLess"),
 (41, "Redir_DGreat"),
 (42, "Redir_GreatAnd"),
 (43, "Redir_LessAnd"),
 (44, "Redir_DLessDash"),
 (45, "Redir_LessGreat"),
 (46, "Redir_Clobber"),
 (47, "Left_DoubleQuote"),
 (48, "Left_SingleQuote"),
 (49, "Left_Backtick"),
 (50, "Left_CommandSub"),
 (51, "Left_VarSub"),
 (52, "Left_ArithSub"),
 (53, "Left_ArithSub2"),
 (54, "Left_DollarDoubleQuote"),
 (55, "Left_DollarSingleQuote"),
 (56, "Left_ProcSubIn"),
 (57, "Left_ProcSubOut"),
 (58, "Right_DoubleQuote"),
 (59, "Right_SingleQuote"),
 (60, "Right_Backtick"),
 (61, "Right_CommandSub"),
 (62, "Right_VarSub"),
 (63, "Right_ArithSub"),
 (64, "Right_DollarDoubleQuote"),
 (65, "Right_DollarSingleQuote"),
 (66, "Right_Subshell"),
 (67, "Right_FuncDef"),
 (68, "Right_CasePat"),
 (69, "Right_ArrayLiteral"),
 (70, "VSub_Name"),
 (71, "VSub_Number"),
 (72, "VSub_Bang"),
 (73, "VSub_At"),
 (74, "VSub_Pound"),
 (75, "VSub_Dollar"),
 (76, "VSub_Amp"),
 (77, "VSub_Star"),
 (78, "VSub_Hyphen"),
 (79, "VSub_QMark"),
 (80, "VTest_ColonHyphen"),
 (81, "VTest_Hyphen"),
 (82, "VTest_ColonEquals"),
 (83, "VTest_Equals"),
 (84, "VTest_ColonQMark"),
 (85, "VTest_QMark"),
 (86, "VTest_ColonPlus"),
 (87, "VTest_Plus"),
 (88, "VOp1_Percent"),
 (89, "VOp1_DPercent"),
 (90, "VOp1_Pound"),
 (91, "VOp1_DPound"),
 (92, "VOp1_Caret"),
 (93, "VOp1_DCaret"),
 (94, "VOp1_Comma"),
 (95, "VOp1_DComma"),
 (96, "VOp2_Slash"),
 (97, "VOp2_Colon"),
 (98, "VOp2_LBracket"),
 (99, "VOp2_RBracket"),
 (100, "Arith_Semi"),
 (101, "Arith_Comma"),
 (102, "Arith_Plus"),
 (103, "Arith_Minus"),
 (104, "Arith_Star"),
 (105, "Arith_Slash"),
 (106, "Arith_Percent"),
 (107, "Arith_DPlus"),
 (108, "Arith_DMinus"),
 (109, "Arith_DStar"),
 (110, "Arith_LParen"),
 (111, "Arith_RParen"),
 (112, "Arith_LBracket"),
 (113, "Arith_RBracket"),
 (114, "Arith_RBrace"),
 (115, "Arith_QMark"),
 (116, "Arith_Colon"),
 (117, "Arith_LessEqual"),
 (118, "Arith_Less"),
 (119, "Arith_GreatEqual"),
 (120, "Arith_Great"),
 (121, "Arith_DEqual"),
 (122, "Arith_NEqual"),
 (123, "Arith_DAmp"),
 (124, "Arith_DPipe"),
 (125, "Arith_Bang"),
 (126, "Arith_DGreat"),
 (127, "Arith_DLess"),
 (128, "Arith_Amp"),
 (129, "Arith_Pipe"),
 (130, "Arith_Caret"),
 (131, "Arith_Tilde"),
 (132, "Arith_Equal"),
 (133, "Arith_PlusEqual"),
 (134, "Arith_MinusEqual"),
 (135, "Arith_StarEqual"),
 (136, "Arith_SlashEqual"),
 (137, "Arith_PercentEqual"),
 (138, "Arith_DGreatEqual"),
 (139, "Arith_DLessEqual"),
 (140, "Arith_AmpEqual"),
 (141, "Arith_PipeEqual"),
 (142, "Arith_CaretEqual"),
 (143, "Node_PostDPlus"),
 (144, "Node_PostDMinus"),
 (145, "Node_UnaryPlus"),
 (146, "Node_UnaryMinus"),
 (147, "Node_ArithVar"),
 (148, "Node_Command"),
 (149, "Node_Assign"),
 (150, "Node_AndOr"),
 (151, "Node_Block"),
 (152, "Node_Subshell"),
 (153, "Node_Fork"),
 (154, "Node_FuncDef"),
 (155, "Node_ForEach"),
 (156, "Node_ForExpr"),
 (157, "Node_NoOp"),
 (158, "Node_UnaryExpr"),
 (159, "Node_BinaryExpr"),
 (160, "Node_TernaryExpr"),
 (161, "Node_FuncCall"),
 (162, "Node_ConstInt"),
 (163, "Word_Compound"),
 (164, "KW_DLeftBracket"),
 (165, "KW_Bang"),
 (166, "KW_For"),
 (167, "KW_While"),
 (168, "KW_Until"),
 (169, "KW_Do"),
 (170, "KW_Done"),
 (171, "KW_In"),
 (172, "KW_Case"),
 (173, "KW_Esac"),
 (174, "KW_If"),
 (175, "KW_Fi"),
 (176, "KW_Then"),
 (177, "KW_Else"),
 (178, "KW_Elif"),
 (179, "KW_Function"),
 (180, "Assign_Declare"),
 (181, "Assign_Export"),
 (182, "Assign_Local"),
 (183, "Assign_Readonly"),
 (184, "BoolUnary_z"),
 (185, "BoolUnary_n"),
 (186, "BoolUnary_o"),
 (187, "BoolUnary_v"),
 (188, "BoolUnary_R"),
 (189, "BoolUnary_a"),
 (190, "BoolUnary_b"),
 (191, "BoolUnary_c"),
 (192, "BoolUnary_d"),
 (193, "BoolUnary_e"),
 (194, "BoolUnary_f"),
 (195, "BoolUnary_g"),
 (196, "BoolUnary_h"),
 (197, "BoolUnary_L"),
 (198, "BoolUnary_p"),
 (199, "BoolUnary_r"),
 (200, "BoolUnary_s"),
 (201, "BoolUnary_S"),
 (202, "BoolUnary_t"),
 (203, "BoolUnary_u"),
 (204, "BoolUnary_w"),
 (205, "BoolUnary_x"),
 (206, "BoolUnary_O"),
 (207, "BoolUnary_G"),
 (208, "BoolUnary_N"),
 (209, "BoolBinary_Equal"),
 (210, "BoolBinary_DEqual"),
 (211, "BoolBinary_NEqual"),
 (212, "BoolBinary_EqualTilde"),
 (213, "BoolBinary_ef"),
 (214, "BoolBinary_nt"),
 (215, "BoolBinary_ot"),
 (216, "BoolBinary_eq"),
 (217, "BoolBinary_ne"),
 (218, "BoolBinary_gt"),
 (219, "BoolBinary_ge"),
 (220, "BoolBinary_lt"),
 (221, "BoolBinary_le")],
   [(1, 0),
 (2, 1),
 (3, 2),
 (4, 2),
 (5, 2),
 (6, 3),
 (7, 3),
 (8, 3),
 (9, 4),
 (10, 5),
 (11, 5),
 (12, 5),
 (13, 5),
 (14, 5),
 (15, 5),
 (16, 5),
 (17, 5),
 (18, 5),
 (19, 5),
 (20, 5),
 (21, 5),
 (22, 5),
 (23, 5),
 (24, 5),
 (25, 6),
 (26, 6),
 (27, 6),
 (28, 6),
 (29, 6),
 (30, 6),
 (31, 6),
 (32, 6),
 (33, 6),
 (34, 6),
 (35, 6),
 (36, 6),
 (37, 7),
 (38, 7),
 (39, 7),
 (40, 7),
 (41, 7),
 (42, 7),
 (43, 7),
 (44, 7),
 (45, 7),
 (46, 7),
 (47, 8),
 (48, 8),
 (49, 8),
 (50, 8),
 (51, 8),
 (52, 8),
 (53, 8),
 (54, 8),
 (55, 8),
 (56, 8),
 (57, 8),
 (58, 9),
 (59, 9),
 (60, 9),
 (61, 9),
 (62, 9),
 (63, 9),
 (64, 9),
 (65, 9),
 (66, 9),
 (67, 9),
 (68, 9),
 (69, 9),
 (70, 10),
 (71, 10),
 (72, 10),
 (73, 10),
 (74, 10),
 (75, 10),
 (76, 10),
 (77, 10),
 (78, 10),
 (79, 10),
 (80, 11),
 (81, 11),
 (82, 11),
 (83, 11),
 (84, 11),
 (85, 11),
 (86, 11),
 (87, 11),
 (88, 12),
 (89, 12),
 (90, 12),
 (91, 12),
 (92, 12),
 (93, 12),
 (94, 12),
 (95, 12),
 (96, 13),
 (97, 13),
 (98, 13),
 (99, 13),
 (100, 14),
 (101, 14),
 (102, 14),
 (103, 14),
 (104, 14),
 (105, 14),
 (106, 14),
 (107, 14),
 (108, 14),
 (109, 14),
 (110, 14),
 (111, 14),
 (112, 14),
 (113, 14),
 (114, 14),
 (115, 14),
 (116, 14),
 (117, 14),
 (118, 14),
 (119, 14),
 (120, 14),
 (121, 14),
 (122, 14),
 (123, 14),
 (124, 14),
 (125, 14),
 (126, 14),
 (127, 14),
 (128, 14),
 (129, 14),
 (130, 14),
 (131, 14),
 (132, 14),
 (133, 14),
 (134, 14),
 (135, 14),
 (136, 14),
 (137, 14),
 (138, 14),
 (139, 14),
 (140, 14),
 (141, 14),
 (142, 14),
 (143, 15),
 (144, 15),
 (145, 15),
 (146, 15),
 (147, 15),
 (148, 15),
 (149, 15),
 (150, 15),
 (151, 15),
 (152, 15),
 (153, 15),
 (154, 15),
 (155, 15),
 (156, 15),
 (157, 15),
 (158, 15),
 (159, 15),
 (160, 15),
 (161, 15),
 (162, 15),
 (163, 16),
 (164, 17),
 (165, 17),
 (166, 17),
 (167, 17),
 (168, 17),
 (169, 17),
 (170, 17),
 (171, 17),
 (172, 17),
 (173, 17),
 (174, 17),
 (175, 17),
 (176, 17),
 (177, 17),
 (178, 17),
 (179, 17),
 (180, 18),
 (181, 18),
 (182, 18),
 (183, 18),
 (184, 19),
 (185, 19),
 (186, 19),
 (187, 19),
 (188, 19),
 (189, 19),
 (190, 19),
 (191, 19),
 (192, 19),
 (193, 19),
 (194, 19),
 (195, 19),
 (196, 19),
 (197, 19),
 (198, 19),
 (199, 19),
 (200, 19),
 (201, 19),
 (202, 19),
 (203, 19),
 (204, 19),
 (205, 19),
 (206, 19),
 (207, 19),
 (208, 19),
 (209, 20),
 (210, 20),
 (211, 20),
 (212, 20),
 (213, 20),
 (214, 20),
 (215, 20),
 (216, 20),
 (217, 20),
 (218, 20),
 (219, 20),
 (220, 20),
 (221, 20)],
   [1, 1, 3, 3, 1, 15, 12, 10, 11, 12, 10, 8, 8, 4, 43, 20, 1, 16, 4, 25, 13],
   [(11,
  [(false, ":-", 80),
   (false, "-", 81),
   (false, ":=", 82),
   (false, "=", 83),
   (false, ":?", 84),
   (false, "?", 85),
   (false, ":+", 86),
   (false, "+", 87)]),
 (12,
  [(false, "%", 88),
   (false, "%%", 89),
   (false, "#", 90),
   (false, "##", 91),
   (false, "^", 92),
   (false, "^^", 93),
   (false, ",", 94),
   (false, ",,", 95)]),
 (13, [(false, "/", 96), (false, ":", 97), (false, "[", 98), (false, "]", 99)]),
 (14,
  [(false, ";", 100),
   (false, ",", 101),
   (false, "+", 102),
   (false, "-", 103),
   (false, "*", 104),
   (false, "/", 105),
   (false, "%", 106),
   (false, "++", 107),
   (false, "--", 108),
   (false, "**", 109),
   (false, "(", 110),
   (false, ")", 111),
   (false, "[", 112),
   (false, "]", 113),
   (false, "\x7d", 114),
   (false, "?", 115),
   (false, ":", 116),
   (false, "<=", 117),
   (false, "<", 118),
   (false, ">=", 119),
   (false, ">", 120),
   (false, "==", 121),
   (false, "!=", 122),
   (false, "&&", 123),
   (false, "||", 124),
   (false, "!", 125),
   (false, ">>", 126),
   (false, "<<", 127),
   (false, "&", 128),
   (false, "|", 129),
   (false, "^", 130),
   (false, "~", 131),
   (false, "=", 132),
   (false, "+=", 133),
   (false, "-=", 134),
   (false, "*=", 135),
   (false, "/=", 136),
   (false, "%=", 137),
   (false, ">>=", 138),
   (false, "<<=", 139),
   (false, "&=", 140),
   (false, "|=", 141),
   (false, "^=", 142)]),
 (19,
  [(false, "-z", 184),
   (false, "-n", 185),
   (false, "-o", 186),
   (false, "-v", 187),
   (false, "-R", 188),
   (false, "-a", 189),
   (false, "-b", 190),
   (false, "-c", 191),
   (false, "-d", 192),
   (false, "-e", 193),
   (false, "-f", 194),
   (false, "-g", 195),
   (false, "-h", 196),
   (false, "-L", 197),
   (false, "-p", 198),
   (false, "-r", 199),
   (false, "-s", 200),
   (false, "-S", 201),
   (false, "-t", 202),
   (false, "-u", 203),
   (false, "-w", 204),
   (false, "-x", 205),
   (false, "-O", 206),
   (false, "-G", 207),
   (false, "-N", 208)]),
 (20,
  [(false, "=", 209),
   (false, "==", 210),
   (false, "!=", 211),
   (false, "=~", 212),
   (false, "-ef", 213),
   (false, "-nt", 214),
   (false, "-ot", 215),
   (false, "-eq", 216),
   (false, "-ne", 217),
   (false, "-gt", 218),
   (false, "-ge", 219),
   (false, "-lt", 220),
   (false, "-le", 221)])],
   [(184, Osh.OperandType.Str),
 (185, Osh.OperandType.Str),
 (186, Osh.OperandType.Other),
 (187, Osh.OperandType.Other),
 (188, Osh.OperandType.Other),
 (189, Osh.OperandType.Path),
 (190, Osh.OperandType.Path),
 (191, Osh.OperandType.Path),
 (192, Osh.OperandType.Path),
 (193, Osh.OperandType.Path),
 (194, Osh.OperandType.Path),
 (195, Osh.OperandType.Path),
 (196, Osh.OperandType.Path),
 (197, Osh.OperandType.Path),
 (198, Osh.OperandType.Path),
 (199, Osh.OperandType.Path),
 (200, Osh.OperandType.Path),
 (201, Osh.OperandType.Path),
 (202, Osh.OperandType.Path),
 (203, Osh.OperandType.Path),
 (204, Osh.OperandType.Path),
 (205, Osh.OperandType.Path),
 (206, Osh.OperandType.Path),
 (207, Osh.OperandType.Path),
 (208, Osh.OperandType.Path),
 (209, Osh.OperandType.Str),
 (210, Osh.OperandType.Str),
 (211, Osh.OperandType.Str),
 (212, Osh.OperandType.Str),
 (213, Osh.OperandType.Path),
 (214, Osh.OperandType.Path),
 (215, Osh.OperandType.Path),
 (216, Osh.OperandType.Int),
 (217, Osh.OperandType.Int),
 (218, Osh.OperandType.Int),
 (219, Osh.OperandType.Int),
 (220, Osh.OperandType.Int),
 (221, Osh.OperandType.Int),
 (29, Osh.OperandType.Undefined),
 (30, Osh.OperandType.Undefined),
 (165, Osh.OperandType.Undefined),
 (37, Osh.OperandType.Str),
 (38, Osh.OperandType.Str)],
   221, 21⟩


/-!
## Registered Id and Kind attribute values

The Python source reads Ids and Kinds as class attributes (`Id.Op_DAmp`,
`Kind.BoolUnary`, ...) installed by the registration above.  The
constants below are those attribute values, written as the integers the
shared counter assigns; the theorems `Id_values` and `Kind_values`
later prove each one equal to the corresponding lookup on `ID_SPEC`, so
nothing here is trusted.
-/

def Id.Undefined_Tok : Nat := 1
def Id.Eof_Real : Nat := 3
def Id.Lit_Chars : Nat := 10
def Id.Lit_VarLike : Nat := 11
def Id.Lit_EscapedChar : Nat := 13
def Id.Lit_DRightBracket : Nat := 17
def Id.Lit_Tilde : Nat := 18
def Id.Lit_ArithVarLike : Nat := 24
def Id.Op_Newline : Nat := 25
def Id.Op_DAmp : Nat := 29
def Id.Op_DPipe : Nat := 30
def Id.Op_LParen : Nat := 33
def Id.Op_RParen : Nat := 34
def Id.Redir_Less : Nat := 37
def Id.Redir_Great : Nat := 38
def Id.Left_SingleQuote : Nat := 48
def Id.Left_CommandSub : Nat := 50
def Id.Left_VarSub : Nat := 51
def Id.Left_ArithSub : Nat := 52
def Id.Left_DoubleQuote : Nat := 47
def Id.Right_ArrayLiteral : Nat := 69
def Id.Word_Compound : Nat := 163
def Id.KW_Bang : Nat := 165
def Id.BoolUnary_z : Nat := 184
def Id.BoolBinary_DEqual : Nat := 210
def Id.BoolBinary_EqualTilde : Nat := 212

def Kind.Undefined : Nat := 0
def Kind.Eof : Nat := 2
def Kind.Lit : Nat := 5
def Kind.Op : Nat := 6
def Kind.Redir : Nat := 7
def Kind.Word : Nat := 16
def Kind.KW : Nat := 17
def Kind.BoolUnary : Nat := 19
def Kind.BoolBinary : Nat := 20

/-- The chunks of `_AddKinds`, for checking the registration process in
stages: `AddKindsA` covers the Kinds through `VOp1`, `AddKindsB` covers
`VOp2` and `Arith`, and `AddKindsC` the rest; `AddKinds_decomp` below
proves `AddKinds` is their composition. -/
def AddKindsA (spec : IdSpec) : IdSpec :=
  let spec := spec.AddKind "Undefined" ["Tok"]
  let spec := spec.AddKind "Unknown" ["Tok"]
  let spec := spec.AddKind "Eof" ["Real", "RParen", "Backtick"]
  let spec := spec.AddKind "Ignored" ["LineCont", "Space", "Comment"]
  let spec := spec.AddKind "WS" ["Space"]
  let spec := spec.AddKind "Lit" [
    "Chars", "VarLike", "Other", "EscapedChar",
    "LBrace", "RBrace", "Comma",
    "DRightBracket",
    "Tilde",
    "Pound",
    "Slash", "Percent",
    "Digits",
    "At",
    "ArithVarLike"]
  let spec := spec.AddKind "Op" [
    "Newline", "Amp", "Pipe", "PipeAmp", "DAmp", "DPipe", "Semi", "DSemi",
    "LParen", "RParen", "DLeftParen", "DRightParen"]
  let spec := spec.AddKind "Redir" [
    "Less", "Great", "DLess", "TLess", "DGreat", "GreatAnd", "LessAnd",
    "DLessDash", "LessGreat", "Clobber"]
  let spec := spec.AddKind "Left" [
    "DoubleQuote", "SingleQuote", "Backtick", "CommandSub", "VarSub",
    "ArithSub", "ArithSub2", "DollarDoubleQuote", "DollarSingleQuote",
    "ProcSubIn", "ProcSubOut"]
  let spec := spec.AddKind "Right" [
    "DoubleQuote", "SingleQuote", "Backtick", "CommandSub", "VarSub",
    "ArithSub", "DollarDoubleQuote", "DollarSingleQuote",
    "Subshell", "FuncDef", "CasePat", "ArrayLiteral"]
  let spec := spec.AddKind "VSub" [
    "Name", "Number", "Bang", "At", "Pound", "Dollar", "Amp", "Star",
    "Hyphen", "QMark"]
  let spec := spec.AddKindPairs "VTest" [
    ("ColonHyphen", ":-"), ("Hyphen", "-"), ("ColonEquals", ":="),
    ("Equals", "="), ("ColonQMark", ":?"), ("QMark", "?"),
    ("ColonPlus", ":+"), ("Plus", "+")]
  spec.AddKindPairs "VOp1" [
    ("Percent", "%"), ("DPercent", "%%"), ("Pound", "#"), ("DPound", "##"),
    ("Caret", "^"), ("DCaret", "^^"), ("Comma", ","), ("DComma", ",,")]

def AddKindsB (spec : IdSpec) : IdSpec :=
  let spec := spec.AddKindPairs "VOp2" [
    ("Slash", "/"), ("Colon", ":"), ("LBracket", "["), ("RBracket", "]")]
  spec.AddKindPairs "Arith" [
    ("Semi", ";"), ("Comma", ","),
    ("Plus", "+"), ("Minus", "-"), ("Star", "*"), ("Slash", "/"),
    ("Percent", "%"),
    ("DPlus", "++"), ("DMinus", "--"), ("DStar", "**"),
    ("LParen", "("), ("RParen", ")"),
    ("LBracket", "["), ("RBracket", "]"),
    ("RBrace", "\x7d"),
    ("QMark", "?"), ("Colon", ":"),
    ("LessEqual", "<="), ("Less", "<"), ("GreatEqual", ">="),
    ("Great", ">"), ("DEqual", "=="), ("NEqual", "!="),
    ("DAmp", "&&"), ("DPipe", "||"), ("Bang", "!"),
    ("DGreat", ">>"), ("DLess", "<<"),
    ("Amp", "&"), ("Pipe", "|"), ("Caret", "^"), ("Tilde", "~"),
    ("Equal", "="),
    ("PlusEqual", "+="), ("MinusEqual", "-="), ("StarEqual", "*="),
    ("SlashEqual", "/="), ("PercentEqual", "%="),
    ("DGreatEqual", ">>="), ("DLessEqual", "<<="),
    ("AmpEqual", "&="), ("PipeEqual", "|="),
    ("CaretEqual", "^=")]

def AddKindsC (spec : IdSpec) : IdSpec :=
  let spec := spec.AddKind "Node" [
    "PostDPlus", "PostDMinus", "UnaryPlus", "UnaryMinus", "ArithVar",
    "Command", "Assign", "AndOr", "Block", "Subshell", "Fork",
    "FuncDef", "ForEach", "ForExpr", "NoOp",
    "UnaryExpr", "BinaryExpr", "TernaryExpr", "FuncCall", "ConstInt"]
  let spec := spec.AddKind "Word" ["Compound"]
  let spec := spec.AddKind "KW" [
    "DLeftBracket", "Bang",
    "For", "While", "Until", "Do", "Done", "In", "Case",
    "Esac", "If", "Fi", "Then", "Else", "Elif", "Function"]
  spec.AddKind "Assign" ["Declare", "Export", "Local", "Readonly"]

/-- The frozen registry state after `AddKindsA`. -/
def ID_TABLES_A : IdSpec :=
  ⟨[("Undefined_Tok", 1),
 ("Unknown_Tok", 2),
 ("Eof_Real", 3),
 ("Eof_RParen", 4),
 ("Eof_Backtick", 5),
 ("Ignored_LineCont", 6),
 ("Ignored_Space", 7),
 ("Ignored_Comment", 8),
 ("WS_Space", 9),
 ("Lit_Chars", 10),
 ("Lit_VarLike", 11),
 ("Lit_Other", 12),
 ("Lit_EscapedChar", 13),
 ("Lit_LBrace", 14),
 ("Lit_RBrace", 15),
 ("Lit_Comma", 16),
 ("Lit_DRightBracket", 17),
 ("Lit_Tilde", 18),
 ("Lit_Pound", 19),
 ("Lit_Slash", 20),
 ("Lit_Percent", 21),
 ("Lit_Digits", 22),
 ("Lit_At", 23),
 ("Lit_ArithVarLike", 24),
 ("Op_Newline", 25),
 ("Op_Amp", 26),
 ("Op_Pipe", 27),
 ("Op_PipeAmp", 28),
 ("Op_DAmp", 29),
 ("Op_DPipe", 30),
 ("Op_Semi", 31),
 ("Op_DSemi", 32),
 ("Op_LParen", 33),
 ("Op_RParen", 34),
 ("Op_DLeftParen", 35),
 ("Op_DRightParen", 36),
 ("Redir_Less", 37),
 ("Redir_Great", 38),
 ("Redir_DLess", 39),
 ("Redir_TLess", 40),
 ("Redir_DGreat", 41),
 ("Redir_GreatAnd", 42),
 ("Redir_LessAnd", 43),
 ("Redir_DLessDash", 44),
 ("Redir_LessGreat", 45),
 ("Redir_Clobber", 46),
 ("Left_DoubleQuote", 47),
 ("Left_SingleQuote", 48),
 ("Left_Backtick", 49),
 ("Left_CommandSub", 50),
 ("Left_VarSub", 51),
 ("Left_ArithSub", 52),
 ("Left_ArithSub2", 53),
 ("Left_DollarDoubleQuote", 54),
 ("Left_DollarSingleQuote", 55),
 ("Left_ProcSubIn", 56),
 ("Left_ProcSubOut", 57),
 ("Right_DoubleQuote", 58),
 ("Right_SingleQuote", 59),
 ("Right_Backtick", 60),
 ("Right_CommandSub", 61),
 ("Right_VarSub", 62),
 ("Right_ArithSub", 63),
 ("Right_DollarDoubleQuote", 64),
 ("Right_DollarSingleQuote", 65),
 ("Right_Subshell", 66),
 ("Right_FuncDef", 67),
 ("Right_CasePat", 68),
 ("Right_ArrayLiteral", 69),
 ("VSub_Name", 70),
 ("VSub_Number", 71),
 ("VSub_Bang", 72),
 ("VSub_At", 73),
 ("VSub_Pound", 74),
 ("VSub_Dollar", 75),
 ("VSub_Amp", 76),
 ("VSub_Star", 77),
 ("VSub_Hyphen", 78),
 ("VSub_QMark", 79),
 ("VTest_ColonHyphen", 80),
 ("VTest_Hyphen", 81),
 ("VTest_ColonEquals", 82),
 ("VTest_Equals", 83),
 ("VTest_ColonQMark", 84),
 ("VTest_QMark", 85),
 ("VTest_ColonPlus", 86),
 ("VTest_Plus", 87),
 ("VOp1_Percent", 88),
 ("VOp1_DPercent", 89),
 ("VOp1_Pound", 90),
 ("VOp1_DPound", 91),
 ("VOp1_Caret", 92),
 ("VOp1_DCaret", 93),
 ("VOp1_Comma", 94),
 ("VOp1_DComma", 95)],
   [("Undefined", 0),
 ("Unknown", 1),
 ("Eof", 2),
 ("Ignored", 3),
 ("WS", 4),
 ("Lit", 5),
 ("Op", 6),
 ("Redir", 7),
 ("Left", 8),
 ("Right", 9),
 ("VSub", 10),
 ("VTest", 11),
 ("VOp1", 12)],
   [(1, "Undefined_Tok"),
 (2, "Unknown_Tok"),
 (3, "Eof_Real"),
 (4, "Eof_RParen"),
 (5, "Eof_Backtick"),
 (6, "Ignored_LineCont"),
 (7, "Ignored_Space"),
 (8, "Ignored_Comment"),
 (9, "WS_Space"),
 (10, "Lit_Chars"),
 (11, "Lit_VarLike"),
 (12, "Lit_Other"),
 (13, "Lit_EscapedChar"),
 (14, "Lit_LBrace"),
 (15, "Lit_RBrace"),
 (16, "Lit_Comma"),
 (17, "Lit_DRightBracket"),
 (18, "Lit_Tilde"),
 (19, "Lit_Pound"),
 (20, "Lit_Slash"),
 (21, "Lit_Percent"),
 (22, "Lit_Digits"),
 (23, "Lit_At"),
 (24, "Lit_ArithVarLike"),
 (25, "Op_Newline"),
 (26, "Op_Amp"),
 (27, "Op_Pipe"),
 (28, "Op_PipeAmp"),
 (29, "Op_DAmp"),
 (30, "Op_DPipe"),
 (31, "Op_Semi"),
 (32, "Op_DSemi"),
 (33, "Op_LParen"),
 (34, "Op_RParen"),
 (35, "Op_DLeftParen"),
 (36, "Op_DRightParen"),
 (37, "Redir_Less"),
 (38, "Redir_Great"),
 (39, "Redir_DLess"),
 (40, "Redir_TLess"),
 (41, "Redir_DGreat"),
 (42, "Redir_GreatAnd"),
 (43, "Redir_LessAnd"),
 (44, "Redir_DLessDash"),
 (45, "Redir_LessGreat"),
 (46, "Redir_Clobber"),
 (47, "Left_DoubleQuote"),
 (48, "Left_SingleQuote"),
 (49, "Left_Backtick"),
 (50, "Left_CommandSub"),
 (51, "Left_VarSub"),
 (52, "Left_ArithSub"),
 (53, "Left_ArithSub2"),
 (54, "Left_DollarDoubleQuote"),
 (55, "Left_DollarSingleQuote"),
 (56, "Left_ProcSubIn"),
 (57, "Left_ProcSubOut"),
 (58, "Right_DoubleQuote"),
 (59, "Right_SingleQuote"),
 (60, "Right_Backtick"),
 (61, "Right_CommandSub"),
 (62, "Right_VarSub"),
 (63, "Right_ArithSub"),
 (64, "Right_DollarDoubleQuote"),
 (65, "Right_DollarSingleQuote"),
 (66, "Right_Subshell"),
 (67, "Right_FuncDef"),
 (68, "Right_CasePat"),
 (69, "Right_ArrayLiteral"),
 (70, "VSub_Name"),
 (71, "VSub_Number"),
 (72, "VSub_Bang"),
 (73, "VSub_At"),
 (74, "VSub_Pound"),
 (75, "VSub_Dollar"),
 (76, "VSub_Amp"),
 (77, "VSub_Star"),
 (78, "VSub_Hyphen"),
 (79, "VSub_QMark"),
 (80, "VTest_ColonHyphen"),
 (81, "VTest_Hyphen"),
 (82, "VTest_ColonEquals"),
 (83, "VTest_Equals"),
 (84, "VTest_ColonQMark"),
 (85, "VTest_QMark"),
 (86, "VTest_ColonPlus"),
 (87, "VTest_Plus"),
 (88, "VOp1_Percent"),
 (89, "VOp1_DPercent"),
 (90, "VOp1_Pound"),
 (91, "VOp1_DPound"),
 (92, "VOp1_Caret"),
 (93, "VOp1_DCaret"),
 (94, "VOp1_Comma"),
 (95, "VOp1_DComma")],
   [(1, 0),
 (2, 1),
 (3, 2),
 (4, 2),
 (5, 2),
 (6, 3),
 (7, 3),
 (8, 3),
 (9, 4),
 (10, 5),
 (11, 5),
 (12, 5),
 (13, 5),
 (14, 5),
 (15, 5),
 (16, 5),
 (17, 5),
 (18, 5),
 (19, 5),
 (20, 5),
 (21, 5),
 (22, 5),
 (23, 5),
 (24, 5),
 (25, 6),
 (26, 6),
 (27, 6),
 (28, 6),
 (29, 6),
 (30, 6),
 (31, 6),
 (32, 6),
 (33, 6),
 (34, 6),
 (35, 6),
 (36, 6),
 (37, 7),
 (38, 7),
 (39, 7),
 (40, 7),
 (41, 7),
 (42, 7),
 (43, 7),
 (44, 7),
 (45, 7),
 (46, 7),
 (47, 8),
 (48, 8),
 (49, 8),
 (50, 8),
 (51, 8),
 (52, 8),
 (53, 8),
 (54, 8),
 (55, 8),
 (56, 8),
 (57, 8),
 (58, 9),
 (59, 9),
 (60, 9),
 (61, 9),
 (62, 9),
 (63, 9),
 (64, 9),
 (65, 9),
 (66, 9),
 (67, 9),
 (68, 9),
 (69, 9),
 (70, 10),
 (71, 10),
 (72, 10),
 (73, 10),
 (74, 10),
 (75, 10),
 (76, 10),
 (77, 10),
 (78, 10),
 (79, 10),
 (80, 11),
 (81, 11),
 (82, 11),
 (83, 11),
 (84, 11),
 (85, 11),
 (86, 11),
 (87, 11),
 (88, 12),
 (89, 12),
 (90, 12),
 (91, 12),
 (92, 12),
 (93, 12),
 (94, 12),
 (95, 12)],
   [1, 1, 3, 3, 1, 15, 12, 10, 11, 12, 10, 8, 8],
   [(11, [(false, ":-", 80),
 (false, "-", 81),
 (false, ":=", 82),
 (false, "=", 83),
 (false, ":?", 84),
 (false, "?", 85),
 (false, ":+", 86),
 (false, "+", 87)]),
 (12, [(false, "%", 88),
 (false, "%%", 89),
 (false, "#", 90),
 (false, "##", 91),
 (false, "^", 92),
 (false, "^^", 93),
 (false, ",", 94),
 (false, ",,", 95)])],
   [],
   95, 13⟩

/-- The frozen registry state after `AddKindsB`. -/
def ID_TABLES_B : IdSpec :=
  ⟨[("Undefined_Tok", 1),
 ("Unknown_Tok", 2),
 ("Eof_Real", 3),
 ("Eof_RParen", 4),
 ("Eof_Backtick", 5),
 ("Ignored_LineCont", 6),
 ("Ignored_Space", 7),
 ("Ignored_Comment", 8),
 ("WS_Space", 9),
 ("Lit_Chars", 10),
 ("Lit_VarLike", 11),
 ("Lit_Other", 12),
 ("Lit_EscapedChar", 13),
 ("Lit_LBrace", 14),
 ("Lit_RBrace", 15),
 ("Lit_Comma", 16),
 ("Lit_DRightBracket", 17),
 ("Lit_Tilde", 18),
 ("Lit_Pound", 19),
 ("Lit_Slash", 20),
 ("Lit_Percent", 21),
 ("Lit_Digits", 22),
 ("Lit_At", 23),
 ("Lit_ArithVarLike", 24),
 ("Op_Newline", 25),
 ("Op_Amp", 26),
 ("Op_Pipe", 27),
 ("Op_PipeAmp", 28),
 ("Op_DAmp", 29),
 ("Op_DPipe", 30),
 ("Op_Semi", 31),
 ("Op_DSemi", 32),
 ("Op_LParen", 33),
 ("Op_RParen", 34),
 ("Op_DLeftParen", 35),
 ("Op_DRightParen", 36),
 ("Redir_Less", 37),
 ("Redir_Great", 38),
 ("Redir_DLess", 39),
 ("Redir_TLess", 40),
 ("Redir_DGreat", 41),
 ("Redir_GreatAnd", 42),
 ("Redir_LessAnd", 43),
 ("Redir_DLessDash", 44),
 ("Redir_LessGreat", 45),
 ("Redir_Clobber", 46),
 ("Left_DoubleQuote", 47),
 ("Left_SingleQuote", 48),
 ("Left_Backtick", 49),
 ("Left_CommandSub", 50),
 ("Left_VarSub", 51),
 ("Left_ArithSub", 52),
 ("Left_ArithSub2", 53),
 ("Left_DollarDoubleQuote", 54),
 ("Left_DollarSingleQuote", 55),
 ("Left_ProcSubIn", 56),
 ("Left_ProcSubOut", 57),
 ("Right_DoubleQuote", 58),
 ("Right_SingleQuote", 59),
 ("Right_Backtick", 60),
 ("Right_CommandSub", 61),
 ("Right_VarSub", 62),
 ("Right_ArithSub", 63),
 ("Right_DollarDoubleQuote", 64),
 ("Right_DollarSingleQuote", 65),
 ("Right_Subshell", 66),
 ("Right_FuncDef", 67),
 ("Right_CasePat", 68),
 ("Right_ArrayLiteral", 69),
 ("VSub_Name", 70),
 ("VSub_Number", 71),
 ("VSub_Bang", 72),
 ("VSub_At", 73),
 ("VSub_Pound", 74),
 ("VSub_Dollar", 75),
 ("VSub_Amp", 76),
 ("VSub_Star", 77),
 ("VSub_Hyphen", 78),
 ("VSub_QMark", 79),
 ("VTest_ColonHyphen", 80),
 ("VTest_Hyphen", 81),
 ("VTest_ColonEquals", 82),
 ("VTest_Equals", 83),
 ("VTest_ColonQMark", 84),
 ("VTest_QMark", 85),
 ("VTest_ColonPlus", 86),
 ("VTest_Plus", 87),
 ("VOp1_Percent", 88),
 ("VOp1_DPercent", 89),
 ("VOp1_Pound", 90),
 ("VOp1_DPound", 91),
 ("VOp1_Caret", 92),
 ("VOp1_DCaret", 93),
 ("VOp1_Comma", 94),
 ("VOp1_DComma", 95),
 ("VOp2_Slash", 96),
 ("VOp2_Colon", 97),
 ("VOp2_LBracket", 98),
 ("VOp2_RBracket", 99),
 ("Arith_Semi", 100),
 ("Arith_Comma", 101),
 ("Arith_Plus", 102),
 ("Arith_Minus", 103),
 ("Arith_Star", 104),
 ("Arith_Slash", 105),
 ("Arith_Percent", 106),
 ("Arith_DPlus", 107),
 ("Arith_DMinus", 108),
 ("Arith_DStar", 109),
 ("Arith_LParen", 110),
 ("Arith_RParen", 111),
 ("Arith_LBracket", 112),
 ("Arith_RBracket", 113),
 ("Arith_RBrace", 114),
 ("Arith_QMark", 115),
 ("Arith_Colon", 116),
 ("Arith_LessEqual", 117),
 ("Arith_Less", 118),
 ("Arith_GreatEqual", 119),
 ("Arith_Great", 120),
 ("Arith_DEqual", 121),
 ("Arith_NEqual", 122),
 ("Arith_DAmp", 123),
 ("Arith_DPipe", 124),
 ("Arith_Bang", 125),
 ("Arith_DGreat", 126),
 ("Arith_DLess", 127),
 ("Arith_Amp", 128),
 ("Arith_Pipe", 129),
 ("Arith_Caret", 130),
 ("Arith_Tilde", 131),
 ("Arith_Equal", 132),
 ("Arith_PlusEqual", 133),
 ("Arith_MinusEqual", 134),
 ("Arith_StarEqual", 135),
 ("Arith_SlashEqual", 136),
 ("Arith_PercentEqual", 137),
 ("Arith_DGreatEqual", 138),
 ("Arith_DLessEqual", 139),
 ("Arith_AmpEqual", 140),
 ("Arith_PipeEqual", 141),
 ("Arith_CaretEqual", 142)],
   [("Undefined", 0),
 ("Unknown", 1),
 ("Eof", 2),
 ("Ignored", 3),
 ("WS", 4),
 ("Lit", 5),
 ("Op", 6),
 ("Redir", 7),
 ("Left", 8),
 ("Right", 9),
 ("VSub", 10),
 ("VTest", 11),
 ("VOp1", 12),
 ("VOp2", 13),
 ("Arith", 14)],
   [(1, "Undefined_Tok"),
 (2, "Unknown_Tok"),
 (3, "Eof_Real"),
 (4, "Eof_RParen"),
 (5, "Eof_Backtick"),
 (6, "Ignored_LineCont"),
 (7, "Ignored_Space"),
 (8, "Ignored_Comment"),
 (9, "WS_Space"),
 (10, "Lit_Chars"),
 (11, "Lit_VarLike"),
 (12, "Lit_Other"),
 (13, "Lit_EscapedChar"),
 (14, "Lit_LBrace"),
 (15, "Lit_RBrace"),
 (16, "Lit_Comma"),
 (17, "Lit_DRightBracket"),
 (18, "Lit_Tilde"),
 (19, "Lit_Pound"),
 (20, "Lit_Slash"),
 (21, "Lit_Percent"),
 (22, "Lit_Digits"),
 (23, "Lit_At"),
 (24, "Lit_ArithVarLike"),
 (25, "Op_Newline"),
 (26, "Op_Amp"),
 (27, "Op_Pipe"),
 (28, "Op_PipeAmp"),
 (29, "Op_DAmp"),
 (30, "Op_DPipe"),
 (31, "Op_Semi"),
 (32, "Op_DSemi"),
 (33, "Op_LParen"),
 (34, "Op_RParen"),
 (35, "Op_DLeftParen"),
 (36, "Op_DRightParen"),
 (37, "Redir_Less"),
 (38, "Redir_Great"),
 (39, "Redir_DLess"),
 (40, "Redir_TLess"),
 (41, "Redir_DGreat"),
 (42, "Redir_GreatAnd"),
 (43, "Redir_LessAnd"),
 (44, "Redir_DLessDash"),
 (45, "Redir_LessGreat"),
 (46, "Redir_Clobber"),
 (47, "Left_DoubleQuote"),
 (48, "Left_SingleQuote"),
 (49, "Left_Backtick"),
 (50, "Left_CommandSub"),
 (51, "Left_VarSub"),
 (52, "Left_ArithSub"),
 (53, "Left_ArithSub2"),
 (54, "Left_DollarDoubleQuote"),
 (55, "Left_DollarSingleQuote"),
 (56, "Left_ProcSubIn"),
 (57, "Left_ProcSubOut"),
 (58, "Right_DoubleQuote"),
 (59, "Right_SingleQuote"),
 (60, "Right_Backtick"),
 (61, "Right_CommandSub"),
 (62, "Right_VarSub"),
 (63, "Right_ArithSub"),
 (64, "Right_DollarDoubleQuote"),
 (65, "Right_DollarSingleQuote"),
 (66, "Right_Subshell"),
 (67, "Right_FuncDef"),
 (68, "Right_CasePat"),
 (69, "Right_ArrayLiteral"),
 (70, "VSub_Name"),
 (71, "VSub_Number"),
 (72, "VSub_Bang"),
 (73, "VSub_At"),
 (74, "VSub_Pound"),
 (75, "VSub_Dollar"),
 (76, "VSub_Amp"),
 (77, "VSub_Star"),
 (78, "VSub_Hyphen"),
 (79, "VSub_QMark"),
 (80, "VTest_ColonHyphen"),
 (81, "VTest_Hyphen"),
 (82, "VTest_ColonEquals"),
 (83, "VTest_Equals"),
 (84, "VTest_ColonQMark"),
 (85, "VTest_QMark"),
 (86, "VTest_ColonPlus"),
 (87, "VTest_Plus"),
 (88, "VOp1_Percent"),
 (89, "VOp1_DPercent"),
 (90, "VOp1_Pound"),
 (91, "VOp1_DPound"),
 (92, "VOp1_Caret"),
 (93, "VOp1_DCaret"),
 (94, "VOp1_Comma"),
 (95, "VOp1_DComma"),
 (96, "VOp2_Slash"),
 (97, "VOp2_Colon"),
 (98, "VOp2_LBracket"),
 (99, "VOp2_RBracket"),
 (100, "Arith_Semi"),
 (101, "Arith_Comma"),
 (102, "Arith_Plus"),
 (103, "Arith_Minus"),
 (104, "Arith_Star"),
 (105, "Arith_Slash"),
 (106, "Arith_Percent"),
 (107, "Arith_DPlus"),
 (108, "Arith_DMinus"),
 (109, "Arith_DStar"),
 (110, "Arith_LParen"),
 (111, "Arith_RParen"),
 (112, "Arith_LBracket"),
 (113, "Arith_RBracket"),
 (114, "Arith_RBrace"),
 (115, "Arith_QMark"),
 (116, "Arith_Colon"),
 (117, "Arith_LessEqual"),
 (118, "Arith_Less"),
 (119, "Arith_GreatEqual"),
 (120, "Arith_Great"),
 (121, "Arith_DEqual"),
 (122, "Arith_NEqual"),
 (123, "Arith_DAmp"),
 (124, "Arith_DPipe"),
 (125, "Arith_Bang"),
 (126, "Arith_DGreat"),
 (127, "Arith_DLess"),
 (128, "Arith_Amp"),
 (129, "Arith_Pipe"),
 (130, "Arith_Caret"),
 (131, "Arith_Tilde"),
 (132, "Arith_Equal"),
 (133, "Arith_PlusEqual"),
 (134, "Arith_MinusEqual"),
 (135, "Arith_StarEqual"),
 (136, "Arith_SlashEqual"),
 (137, "Arith_PercentEqual"),
 (138, "Arith_DGreatEqual"),
 (139, "Arith_DLessEqual"),
 (140, "Arith_AmpEqual"),
 (141, "Arith_PipeEqual"),
 (142, "Arith_CaretEqual")],
   [(1, 0),
 (2, 1),
 (3, 2),
 (4, 2),
 (5, 2),
 (6, 3),
 (7, 3),
 (8, 3),
 (9, 4),
 (10, 5),
 (11, 5),
 (12, 5),
 (13, 5),
 (14, 5),
 (15, 5),
 (16, 5),
 (17, 5),
 (18, 5),
 (19, 5),
 (20, 5),
 (21, 5),
 (22, 5),
 (23, 5),
 (24, 5),
 (25, 6),
 (26, 6),
 (27, 6),
 (28, 6),
 (29, 6),
 (30, 6),
 (31, 6),
 (32, 6),
 (33, 6),
 (34, 6),
 (35, 6),
 (36, 6),
 (37, 7),
 (38, 7),
 (39, 7),
 (40, 7),
 (41, 7),
 (42, 7),
 (43, 7),
 (44, 7),
 (45, 7),
 (46, 7),
 (47, 8),
 (48, 8),
 (49, 8),
 (50, 8),
 (51, 8),
 (52, 8),
 (53, 8),
 (54, 8),
 (55, 8),
 (56, 8),
 (57, 8),
 (58, 9),
 (59, 9),
 (60, 9),
 (61, 9),
 (62, 9),
 (63, 9),
 (64, 9),
 (65, 9),
 (66, 9),
 (67, 9),
 (68, 9),
 (69, 9),
 (70, 10),
 (71, 10),
 (72, 10),
 (73, 10),
 (74, 10),
 (75, 10),
 (76, 10),
 (77, 10),
 (78, 10),
 (79, 10),
 (80, 11),
 (81, 11),
 (82, 11),
 (83, 11),
 (84, 11),
 (85, 11),
 (86, 11),
 (87, 11),
 (88, 12),
 (89, 12),
 (90, 12),
 (91, 12),
 (92, 12),
 (93, 12),
 (94, 12),
 (95, 12),
 (96, 13),
 (97, 13),
 (98, 13),
 (99, 13),
 (100, 14),
 (101, 14),
 (102, 14),
 (103, 14),
 (104, 14),
 (105, 14),
 (106, 14),
 (107, 14),
 (108, 14),
 (109, 14),
 (110, 14),
 (111, 14),
 (112, 14),
 (113, 14),
 (114, 14),
 (115, 14),
 (116, 14),
 (117, 14),
 (118, 14),
 (119, 14),
 (120, 14),
 (121, 14),
 (122, 14),
 (123, 14),
 (124, 14),
 (125, 14),
 (126, 14),
 (127, 14),
 (128, 14),
 (129, 14),
 (130, 14),
 (131, 14),
 (132, 14),
 (133, 14),
 (134, 14),
 (135, 14),
 (136, 14),
 (137, 14),
 (138, 14),
 (139, 14),
 (140, 14),
 (141, 14),
 (142, 14)],
   [1, 1, 3, 3, 1, 15, 12, 10, 11, 12, 10, 8, 8, 4, 43],
   [(11, [(false, ":-", 80),
 (false, "-", 81),
 (false, ":=", 82),
 (false, "=", 83),
 (false, ":?", 84),
 (false, "?", 85),
 (false, ":+", 86),
 (false, "+", 87)]),
 (12, [(false, "%", 88),
 (false, "%%", 89),
 (false, "#", 90),
 (false, "##", 91),
 (false, "^", 92),
 (false, "^^", 93),
 (false, ",", 94),
 (false, ",,", 95)]),
 (13, [(false, "/", 96),
 (false, ":", 97),
 (false, "[", 98),
 (false, "]", 99)]),
 (14, [(false, ";", 100),
 (false, ",", 101),
 (false, "+", 102),
 (false, "-", 103),
 (false, "*", 104),
 (false, "/", 105),
 (false, "%", 106),
 (false, "++", 107),
 (false, "--", 108),
 (false, "**", 109),
 (false, "(", 110),
 (false, ")", 111),
 (false, "[", 112),
 (false, "]", 113),
 (false, "\x7d", 114),
 (false, "?", 115),
 (false, ":", 116),
 (false, "<=", 117),
 (false, "<", 118),
 (false, ">=", 119),
 (false, ">", 120),
 (false, "==", 121),
 (false, "!=", 122),
 (false, "&&", 123),
 (false, "||", 124),
 (false, "!", 125),
 (false, ">>", 126),
 (false, "<<", 127),
 (false, "&", 128),
 (false, "|", 129),
 (false, "^", 130),
 (false, "~", 131),
 (false, "=", 132),
 (false, "+=", 133),
 (false, "-=", 134),
 (false, "*=", 135),
 (false, "/=", 136),
 (false, "%=", 137),
 (false, ">>=", 138),
 (false, "<<=", 139),
 (false, "&=", 140),
 (false, "|=", 141),
 (false, "^=", 142)])],
   [],
   142, 15⟩

/-- The frozen registry state after `AddKindsC` (all of `_AddKinds`). -/
def ID_TABLES_C : IdSpec :=
  ⟨[("Undefined_Tok", 1),
 ("Unknown_Tok", 2),
 ("Eof_Real", 3),
 ("Eof_RParen", 4),
 ("Eof_Backtick", 5),
 ("Ignored_LineCont", 6),
 ("Ignored_Space", 7),
 ("Ignored_Comment", 8),
 ("WS_Space", 9),
 ("Lit_Chars", 10),
 ("Lit_VarLike", 11),
 ("Lit_Other", 12),
 ("Lit_EscapedChar", 13),
 ("Lit_LBrace", 14),
 ("Lit_RBrace", 15),
 ("Lit_Comma", 16),
 ("Lit_DRightBracket", 17),
 ("Lit_Tilde", 18),
 ("Lit_Pound", 19),
 ("Lit_Slash", 20),
 ("Lit_Percent", 21),
 ("Lit_Digits", 22),
 ("Lit_At", 23),
 ("Lit_ArithVarLike", 24),
 ("Op_Newline", 25),
 ("Op_Amp", 26),
 ("Op_Pipe", 27),
 ("Op_PipeAmp", 28),
 ("Op_DAmp", 29),
 ("Op_DPipe", 30),
 ("Op_Semi", 31),
 ("Op_DSemi", 32),
 ("Op_LParen", 33),
 ("Op_RParen", 34),
 ("Op_DLeftParen", 35),
 ("Op_DRightParen", 36),
 ("Redir_Less", 37),
 ("Redir_Great", 38),
 ("Redir_DLess", 39),
 ("Redir_TLess", 40),
 ("Redir_DGreat", 41),
 ("Redir_GreatAnd", 42),
 ("Redir_LessAnd", 43),
 ("Redir_DLessDash", 44),
 ("Redir_LessGreat", 45),
 ("Redir_Clobber", 46),
 ("Left_DoubleQuote", 47),
 ("Left_SingleQuote", 48),
 ("Left_Backtick", 49),
 ("Left_CommandSub", 50),
 ("Left_VarSub", 51),
 ("Left_ArithSub", 52),
 ("Left_ArithSub2", 53),
 ("Left_DollarDoubleQuote", 54),
 ("Left_DollarSingleQuote", 55),
 ("Left_ProcSubIn", 56),
 ("Left_ProcSubOut", 57),
 ("Right_DoubleQuote", 58),
 ("Right_SingleQuote", 59),
 ("Right_Backtick", 60),
 ("Right_CommandSub", 61),
 ("Right_VarSub", 62),
 ("Right_ArithSub", 63),
 ("Right_DollarDoubleQuote", 64),
 ("Right_DollarSingleQuote", 65),
 ("Right_Subshell", 66),
 ("Right_FuncDef", 67),
 ("Right_CasePat", 68),
 ("Right_ArrayLiteral", 69),
 ("VSub_Name", 70),
 ("VSub_Number", 71),
 ("VSub_Bang", 72),
 ("VSub_At", 73),
 ("VSub_Pound", 74),
 ("VSub_Dollar", 75),
 ("VSub_Amp", 76),
 ("VSub_Star", 77),
 ("VSub_Hyphen", 78),
 ("VSub_QMark", 79),
 ("VTest_ColonHyphen", 80),
 ("VTest_Hyphen", 81),
 ("VTest_ColonEquals", 82),
 ("VTest_Equals", 83),
 ("VTest_ColonQMark", 84),
 ("VTest_QMark", 85),
 ("VTest_ColonPlus", 86),
 ("VTest_Plus", 87),
 ("VOp1_Percent", 88),
 ("VOp1_DPercent", 89),
 ("VOp1_Pound", 90),
 ("VOp1_DPound", 91),
 ("VOp1_Caret", 92),
 ("VOp1_DCaret", 93),
 ("VOp1_Comma", 94),
 ("VOp1_DComma", 95),
 ("VOp2_Slash", 96),
 ("VOp2_Colon", 97),
 ("VOp2_LBracket", 98),
 ("VOp2_RBracket", 99),
 ("Arith_Semi", 100),
 ("Arith_Comma", 101),
 ("Arith_Plus", 102),
 ("Arith_Minus", 103),
 ("Arith_Star", 104),
 ("Arith_Slash", 105),
 ("Arith_Percent", 106),
 ("Arith_DPlus", 107),
 ("Arith_DMinus", 108),
 ("Arith_DStar", 109),
 ("Arith_LParen", 110),
 ("Arith_RParen", 111),
 ("Arith_LBracket", 112),
 ("Arith_RBracket", 113),
 ("Arith_RBrace", 114),
 ("Arith_QMark", 115),
 ("Arith_Colon", 116),
 ("Arith_LessEqual", 117),
 ("Arith_Less", 118),
 ("Arith_GreatEqual", 119),
 ("Arith_Great", 120),
 ("Arith_DEqual", 121),
 ("Arith_NEqual", 122),
 ("Arith_DAmp", 123),
 ("Arith_DPipe", 124),
 ("Arith_Bang", 125),
 ("Arith_DGreat", 126),
 ("Arith_DLess", 127),
 ("Arith_Amp", 128),
 ("Arith_Pipe", 129),
 ("Arith_Caret", 130),
 ("Arith_Tilde", 131),
 ("Arith_Equal", 132),
 ("Arith_PlusEqual", 133),
 ("Arith_MinusEqual", 134),
 ("Arith_StarEqual", 135),
 ("Arith_SlashEqual", 136),
 ("Arith_PercentEqual", 137),
 ("Arith_DGreatEqual", 138),
 ("Arith_DLessEqual", 139),
 ("Arith_AmpEqual", 140),
 ("Arith_PipeEqual", 141),
 ("Arith_CaretEqual", 142),
 ("Node_PostDPlus", 143),
 ("Node_PostDMinus", 144),
 ("Node_UnaryPlus", 145),
 ("Node_UnaryMinus", 146),
 ("Node_ArithVar", 147),
 ("Node_Command", 148),
 ("Node_Assign", 149),
 ("Node_AndOr", 150),
 ("Node_Block", 151),
 ("Node_Subshell", 152),
 ("Node_Fork", 153),
 ("Node_FuncDef", 154),
 ("Node_ForEach", 155),
 ("Node_ForExpr", 156),
 ("Node_NoOp", 157),
 ("Node_UnaryExpr", 158),
 ("Node_BinaryExpr", 159),
 ("Node_TernaryExpr", 160),
 ("Node_FuncCall", 161),
 ("Node_ConstInt", 162),
 ("Word_Compound", 163),
 ("KW_DLeftBracket", 164),
 ("KW_Bang", 165),
 ("KW_For", 166),
 ("KW_While", 167),
 ("KW_Until", 168),
 ("KW_Do", 169),
 ("KW_Done", 170),
 ("KW_In", 171),
 ("KW_Case", 172),
 ("KW_Esac", 173),
 ("KW_If", 174),
 ("KW_Fi", 175),
 ("KW_Then", 176),
 ("KW_Else", 177),
 ("KW_Elif", 178),
 ("KW_Function", 179),
 ("Assign_Declare", 180),
 ("Assign_Export", 181),
 ("Assign_Local", 182),
 ("Assign_Readonly", 183)],
   [("Undefined", 0),
 ("Unknown", 1),
 ("Eof", 2),
 ("Ignored", 3),
 ("WS", 4),
 ("Lit", 5),
 ("Op", 6),
 ("Redir", 7),
 ("Left", 8),
 ("Right", 9),
 ("VSub", 10),
 ("VTest", 11),
 ("VOp1", 12),
 ("VOp2", 13),
 ("Arith", 14),
 ("Node", 15),
 ("Word", 16),
 ("KW", 17),
 ("Assign", 18)],
   [(1, "Undefined_Tok"),
 (2, "Unknown_Tok"),
 (3, "Eof_Real"),
 (4, "Eof_RParen"),
 (5, "Eof_Backtick"),
 (6, "Ignored_LineCont"),
 (7, "Ignored_Space"),
 (8, "Ignored_Comment"),
 (9, "WS_Space"),
 (10, "Lit_Chars"),
 (11, "Lit_VarLike"),
 (12, "Lit_Other"),
 (13, "Lit_EscapedChar"),
 (14, "Lit_LBrace"),
 (15, "Lit_RBrace"),
 (16, "Lit_Comma"),
 (17, "Lit_DRightBracket"),
 (18, "Lit_Tilde"),
 (19, "Lit_Pound"),
 (20, "Lit_Slash"),
 (21, "Lit_Percent"),
 (22, "Lit_Digits"),
 (23, "Lit_At"),
 (24, "Lit_ArithVarLike"),
 (25, "Op_Newline"),
 (26, "Op_Amp"),
 (27, "Op_Pipe"),
 (28, "Op_PipeAmp"),
 (29, "Op_DAmp"),
 (30, "Op_DPipe"),
 (31, "Op_Semi"),
 (32, "Op_DSemi"),
 (33, "Op_LParen"),
 (34, "Op_RParen"),
 (35, "Op_DLeftParen"),
 (36, "Op_DRightParen"),
 (37, "Redir_Less"),
 (38, "Redir_Great"),
 (39, "Redir_DLess"),
 (40, "Redir_TLess"),
 (41, "Redir_DGreat"),
 (42, "Redir_GreatAnd"),
 (43, "Redir_LessAnd"),
 (44, "Redir_DLessDash"),
 (45, "Redir_LessGreat"),
 (46, "Redir_Clobber"),
 (47, "Left_DoubleQuote"),
 (48, "Left_SingleQuote"),
 (49, "Left_Backtick"),
 (50, "Left_CommandSub"),
 (51, "Left_VarSub"),
 (52, "Left_ArithSub"),
 (53, "Left_ArithSub2"),
 (54, "Left_DollarDoubleQuote"),
 (55, "Left_DollarSingleQuote"),
 (56, "Left_ProcSubIn"),
 (57, "Left_ProcSubOut"),
 (58, "Right_DoubleQuote"),
 (59, "Right_SingleQuote"),
 (60, "Right_Backtick"),
 (61, "Right_CommandSub"),
 (62, "Right_VarSub"),
 (63, "Right_ArithSub"),
 (64, "Right_DollarDoubleQuote"),
 (65, "Right_DollarSingleQuote"),
 (66, "Right_Subshell"),
 (67, "Right_FuncDef"),
 (68, "Right_CasePat"),
 (69, "Right_ArrayLiteral"),
 (70, "VSub_Name"),
 (71, "VSub_Number"),
 (72, "VSub_Bang"),
 (73, "VSub_At"),
 (74, "VSub_Pound"),
 (75, "VSub_Dollar"),
 (76, "VSub_Amp"),
 (77, "VSub_Star"),
 (78, "VSub_Hyphen"),
 (79, "VSub_QMark"),
 (80, "VTest_ColonHyphen"),
 (81, "VTest_Hyphen"),
 (82, "VTest_ColonEquals"),
 (83, "VTest_Equals"),
 (84, "VTest_ColonQMark"),
 (85, "VTest_QMark"),
 (86, "VTest_ColonPlus"),
 (87, "VTest_Plus"),
 (88, "VOp1_Percent"),
 (89, "VOp1_DPercent"),
 (90, "VOp1_Pound"),
 (91, "VOp1_DPound"),
 (92, "VOp1_Caret"),
 (93, "VOp1_DCaret"),
 (94, "VOp1_Comma"),
 (95, "VOp1_DComma"),
 (96, "VOp2_Slash"),
 (97, "VOp2_Colon"),
 (98, "VOp2_LBracket"),
 (99, "VOp2_RBracket"),
 (100, "Arith_Semi"),
 (101, "Arith_Comma"),
 (102, "Arith_Plus"),
 (103, "Arith_Minus"),
 (104, "Arith_Star"),
 (105, "Arith_Slash"),
 (106, "Arith_Percent"),
 (107, "Arith_DPlus"),
 (108, "Arith_DMinus"),
 (109, "Arith_DStar"),
 (110, "Arith_LParen"),
 (111, "Arith_RParen"),
 (112, "Arith_LBracket"),
 (113, "Arith_RBracket"),
 (114, "Arith_RBrace"),
 (115, "Arith_QMark"),
 (116, "Arith_Colon"),
 (117, "Arith_LessEqual"),
 (118, "Arith_Less"),
 (119, "Arith_GreatEqual"),
 (120, "Arith_Great"),
 (121, "Arith_DEqual"),
 (122, "Arith_NEqual"),
 (123, "Arith_DAmp"),
 (124, "Arith_DPipe"),
 (125, "Arith_Bang"),
 (126, "Arith_DGreat"),
 (127, "Arith_DLess"),
 (128, "Arith_Amp"),
 (129, "Arith_Pipe"),
 (130, "Arith_Caret"),
 (131, "Arith_Tilde"),
 (132, "Arith_Equal"),
 (133, "Arith_PlusEqual"),
 (134, "Arith_MinusEqual"),
 (135, "Arith_StarEqual"),
 (136, "Arith_SlashEqual"),
 (137, "Arith_PercentEqual"),
 (138, "Arith_DGreatEqual"),
 (139, "Arith_DLessEqual"),
 (140, "Arith_AmpEqual"),
 (141, "Arith_PipeEqual"),
 (142, "Arith_CaretEqual"),
 (143, "Node_PostDPlus"),
 (144, "Node_PostDMinus"),
 (145, "Node_UnaryPlus"),
 (146, "Node_UnaryMinus"),
 (147, "Node_ArithVar"),
 (148, "Node_Command"),
 (149, "Node_Assign"),
 (150, "Node_AndOr"),
 (151, "Node_Block"),
 (152, "Node_Subshell"),
 (153, "Node_Fork"),
 (154, "Node_FuncDef"),
 (155, "Node_ForEach"),
 (156, "Node_ForExpr"),
 (157, "Node_NoOp"),
 (158, "Node_UnaryExpr"),
 (159, "Node_BinaryExpr"),
 (160, "Node_TernaryExpr"),
 (161, "Node_FuncCall"),
 (162, "Node_ConstInt"),
 (163, "Word_Compound"),
 (164, "KW_DLeftBracket"),
 (165, "KW_Bang"),
 (166, "KW_For"),
 (167, "KW_While"),
 (168, "KW_Until"),
 (169, "KW_Do"),
 (170, "KW_Done"),
 (171, "KW_In"),
 (172, "KW_Case"),
 (173, "KW_Esac"),
 (174, "KW_If"),
 (175, "KW_Fi"),
 (176, "KW_Then"),
 (177, "KW_Else"),
 (178, "KW_Elif"),
 (179, "KW_Function"),
 (180, "Assign_Declare"),
 (181, "Assign_Export"),
 (182, "Assign_Local"),
 (183, "Assign_Readonly")],
   [(1, 0),
 (2, 1),
 (3, 2),
 (4, 2),
 (5, 2),
 (6, 3),
 (7, 3),
 (8, 3),
 (9, 4),
 (10, 5),
 (11, 5),
 (12, 5),
 (13, 5),
 (14, 5),
 (15, 5),
 (16, 5),
 (17, 5),
 (18, 5),
 (19, 5),
 (20, 5),
 (21, 5),
 (22, 5),
 (23, 5),
 (24, 5),
 (25, 6),
 (26, 6),
 (27, 6),
 (28, 6),
 (29, 6),
 (30, 6),
 (31, 6),
 (32, 6),
 (33, 6),
 (34, 6),
 (35, 6),
 (36, 6),
 (37, 7),
 (38, 7),
 (39, 7),
 (40, 7),
 (41, 7),
 (42, 7),
 (43, 7),
 (44, 7),
 (45, 7),
 (46, 7),
 (47, 8),
 (48, 8),
 (49, 8),
 (50, 8),
 (51, 8),
 (52, 8),
 (53, 8),
 (54, 8),
 (55, 8),
 (56, 8),
 (57, 8),
 (58, 9),
 (59, 9),
 (60, 9),
 (61, 9),
 (62, 9),
 (63, 9),
 (64, 9),
 (65, 9),
 (66, 9),
 (67, 9),
 (68, 9),
 (69, 9),
 (70, 10),
 (71, 10),
 (72, 10),
 (73, 10),
 (74, 10),
 (75, 10),
 (76, 10),
 (77, 10),
 (78, 10),
 (79, 10),
 (80, 11),
 (81, 11),
 (82, 11),
 (83, 11),
 (84, 11),
 (85, 11),
 (86, 11),
 (87, 11),
 (88, 12),
 (89, 12),
 (90, 12),
 (91, 12),
 (92, 12),
 (93, 12),
 (94, 12),
 (95, 12),
 (96, 13),
 (97, 13),
 (98, 13),
 (99, 13),
 (100, 14),
 (101, 14),
 (102, 14),
 (103, 14),
 (104, 14),
 (105, 14),
 (106, 14),
 (107, 14),
 (108, 14),
 (109, 14),
 (110, 14),
 (111, 14),
 (112, 14),
 (113, 14),
 (114, 14),
 (115, 14),
 (116, 14),
 (117, 14),
 (118, 14),
 (119, 14),
 (120, 14),
 (121, 14),
 (122, 14),
 (123, 14),
 (124, 14),
 (125, 14),
 (126, 14),
 (127, 14),
 (128, 14),
 (129, 14),
 (130, 14),
 (131, 14),
 (132, 14),
 (133, 14),
 (134, 14),
 (135, 14),
 (136, 14),
 (137, 14),
 (138, 14),
 (139, 14),
 (140, 14),
 (141, 14),
 (142, 14),
 (143, 15),
 (144, 15),
 (145, 15),
 (146, 15),
 (147, 15),
 (148, 15),
 (149, 15),
 (150, 15),
 (151, 15),
 (152, 15),
 (153, 15),
 (154, 15),
 (155, 15),
 (156, 15),
 (157, 15),
 (158, 15),
 (159, 15),
 (160, 15),
 (161, 15),
 (162, 15),
 (163, 16),
 (164, 17),
 (165, 17),
 (166, 17),
 (167, 17),
 (168, 17),
 (169, 17),
 (170, 17),
 (171, 17),
 (172, 17),
 (173, 17),
 (174, 17),
 (175, 17),
 (176, 17),
 (177, 17),
 (178, 17),
 (179, 17),
 (180, 18),
 (181, 18),
 (182, 18),
 (183, 18)],
   [1, 1, 3, 3, 1, 15, 12, 10, 11, 12, 10, 8, 8, 4, 43, 20, 1, 16, 4],
   [(11, [(false, ":-", 80),
 (false, "-", 81),
 (false, ":=", 82),
 (false, "=", 83),
 (false, ":?", 84),
 (false, "?", 85),
 (false, ":+", 86),
 (false, "+", 87)]),
 (12, [(false, "%", 88),
 (false, "%%", 89),
 (false, "#", 90),
 (false, "##", 91),
 (false, "^", 92),
 (false, "^^", 93),
 (false, ",", 94),
 (false, ",,", 95)]),
 (13, [(false, "/", 96),
 (false, ":", 97),
 (false, "[", 98),
 (false, "]", 99)]),
 (14, [(false, ";", 100),
 (false, ",", 101),
 (false, "+", 102),
 (false, "-", 103),
 (false, "*", 104),
 (false, "/", 105),
 (false, "%", 106),
 (false, "++", 107),
 (false, "--", 108),
 (false, "**", 109),
 (false, "(", 110),
 (false, ")", 111),
 (false, "[", 112),
 (false, "]", 113),
 (false, "\x7d", 114),
 (false, "?", 115),
 (false, ":", 116),
 (false, "<=", 117),
 (false, "<", 118),
 (false, ">=", 119),
 (false, ">", 120),
 (false, "==", 121),
 (false, "!=", 122),
 (false, "&&", 123),
 (false, "||", 124),
 (false, "!", 125),
 (false, ">>", 126),
 (false, "<<", 127),
 (false, "&", 128),
 (false, "|", 129),
 (false, "^", 130),
 (false, "~", 131),
 (false, "=", 132),
 (false, "+=", 133),
 (false, "-=", 134),
 (false, "*=", 135),
 (false, "/=", 136),
 (false, "%=", 137),
 (false, ">>=", 138),
 (false, "<<=", 139),
 (false, "&=", 140),
 (false, "|=", 141),
 (false, "^=", 142)])],
   [],
   183, 19⟩

/-! ## Word model (`core/word_node.py`) -/

/-- A lexer token: `(id, value)`.  Source spans are not modelled (no
claim observes them). -/
structure Token where
  id : Nat
  val : String
deriving DecidableEq

/-- The `WordPart` class hierarchy.  Each constructor carries the fields
the claims observe; `CommandSubPart`'s command AST and `ArithSubPart`'s
arithmetic AST are opaque handles supplied by upper parsers (out of
scope per the spec), and `VarSubPart`'s three operator slots are
populated only after construction and read by no modelled operation.
An `ArrayLiteralPart`'s words are compound words, i.e. lists of parts. -/
inductive WordPart where
  | ArrayLiteralPart (words : List (List WordPart))
  | LiteralPart (token : Token)
  | EscapedLiteralPart (token : Token)
  | SingleQuotedPart (tokens : List Token)
  | DoubleQuotedPart (parts : List WordPart)
  | CommandSubPart (token : Token)
  | VarSubPart (name : String)
  | TildeSubPart (prfx : String)
  | ArithSubPart

/-- The node id each `WordPart` subclass passes to `_Node.__init__`. -/
def WordPart.nodeId : WordPart → Nat
  | .ArrayLiteralPart _ => Id.Right_ArrayLiteral
  | .LiteralPart _ => Id.Lit_Chars
  | .EscapedLiteralPart _ => Id.Lit_EscapedChar
  | .SingleQuotedPart _ => Id.Left_SingleQuote
  | .DoubleQuotedPart _ => Id.Left_DoubleQuote
  | .CommandSubPart _ => Id.Left_CommandSub
  | .VarSubPart _ => Id.Left_VarSub
  | .TildeSubPart _ => Id.Lit_Tilde
  | .ArithSubPart => Id.Left_ArithSub

/-- `WordPart.LiteralId`: the token's Id for a `LiteralPart`, and the
base-class default `Id.Undefined_Tok` for every other part (note that
`EscapedLiteralPart` does not override it). -/
def WordPart.LiteralId : WordPart → Nat
  | .LiteralPart t => t.id
  | _ => Id.Undefined_Tok

/-- Python `s.endswith('=')`: the last character is `=`. -/
def endsWithEq (s : String) : Bool :=
  s.data.getLast? = some '='

/-- Python `s[:-1]`: drop the last character. -/
def dropLastChar (s : String) : String :=
  String.mk s.data.dropLast

/-- `LiteralPart.VarLikeName`: the name before the trailing `=` when the
token is `Lit_VarLike` (the source asserts the value ends in `=`; the
assertion failure is the `.error` case), and the base default `False`
(`none`) otherwise. -/
def WordPart.VarLikeName : WordPart → Except Unit (Option String)
  | .LiteralPart t =>
    if t.id = Id.Lit_VarLike then
      if endsWithEq t.val then .ok (some (dropLastChar t.val))
      else .error ()
    else .ok none
  | _ => .ok none

/-- `LiteralPart.ArithVarLikeName`: the token value when the token is
`Lit_ArithVarLike`; `none` models the Python `False` default. -/
def WordPart.ArithVarLikeName : WordPart → Option String
  | .LiteralPart t =>
    if t.id = Id.Lit_ArithVarLike then some t.val else none
  | _ => none

/-- `SingleQuotedPart._Eval`: concatenate the token values. -/
def SingleQuotedEval (tokens : List Token) : String :=
  String.join (tokens.map (fun t => t.val))

mutual

/-- `WordPart.EvalStatic` across the subclasses; the triple is
`(ok, value, quoted)`.  `ArrayLiteralPart` inherits the base method,
which raises `NotImplementedError` (the `.error` case). -/
def WordPart.EvalStatic : WordPart → Except Unit (Bool × String × Bool)
  | .ArrayLiteralPart _ => .error ()
  | .LiteralPart t => .ok (true, t.val, false)
  | .EscapedLiteralPart t => .ok (true, String.mk (t.val.data.drop 1), true)
  | .SingleQuotedPart tokens => .ok (true, SingleQuotedEval tokens, true)
  | .DoubleQuotedPart parts => DoubleQuotedEvalStatic parts ""
  | .CommandSubPart _ => .ok (false, "", false)
  | .VarSubPart _ => .ok (false, "", false)
  | .TildeSubPart _ => .ok (false, "", false)
  | .ArithSubPart => .ok (false, "", false)

/-- The loop of `DoubleQuotedPart.EvalStatic`: concatenate the parts'
static values, failing as `(False, '', True)` when any part fails, and
reporting `quoted = True` always. -/
def DoubleQuotedEvalStatic : List WordPart → String →
    Except Unit (Bool × String × Bool)
  | [], ret => .ok (true, ret, true)
  | p :: ps, ret =>
    match p.EvalStatic with
    | .error e => .error e
    | .ok r =>
      if r.1 then DoubleQuotedEvalStatic ps (ret ++ r.2.1)
      else .ok (false, "", true)

end

/-- `WordPart.IsSubst`: true exactly for the substitution parts
(`CommandSubPart`, `VarSubPart`, `ArithSubPart` override the base
`False`). -/
def WordPart.IsSubst : WordPart → Bool
  | .CommandSubPart _ => true
  | .VarSubPart _ => true
  | .ArithSubPart => true
  | _ => false

mutual

/-- Does an array literal occur in this part, at any depth reachable by
`EvalStatic` (i.e. through double-quoted nesting)?  Statement apparatus
for the static-evaluation claims, not a source method. -/
def WordPart.containsArrayLiteral : WordPart → Bool
  | .ArrayLiteralPart _ => true
  | .DoubleQuotedPart ps => listContainsArrayLiteral ps
  | _ => false

/-- `containsArrayLiteral` over a part list. -/
def listContainsArrayLiteral : List WordPart → Bool
  | [] => false
  | p :: ps => p.containsArrayLiteral || listContainsArrayLiteral ps

end

/-- The static contribution of a part that is literal, single-quoted or
escaped: the text it contributes and whether it counts as quoted.
Statement apparatus describing the spec's wording. -/
def staticContribution : WordPart → Option (String × Bool)
  | .LiteralPart t => some (t.val, false)
  | .SingleQuotedPart tokens => some (SingleQuotedEval tokens, true)
  | .EscapedLiteralPart t => some (String.mk (t.val.data.drop 1), true)
  | _ => none

/-- Concatenation of the parts' static contributions. -/
def contribText : List WordPart → String
  | [] => ""
  | p :: ps => ((staticContribution p).getD ("", false)).1 ++ contribText ps

/-- Whether any part's static contribution is quoted. -/
def contribQuoted : List WordPart → Bool
  | [] => false
  | p :: ps => ((staticContribution p).getD ("", false)).2 || contribQuoted ps

/-- A `Word`: either a `CompoundWord` (a sequence of parts) or a
`TokenWord` (a bare operator/keyword/EOF token). -/
inductive Word where
  | CompoundWord (parts : List WordPart)
  | TokenWord (token : Token)

/-- `CompoundWord.BoolId` and `TokenWord.BoolId`: classify a word inside
`[[ ... ]]`. -/
def Word.BoolId : Word → Nat
  | .CompoundWord parts =>
    match parts with
    | [p] =>
      let token_type := p.LiteralId
      if token_type = Id.Undefined_Tok then Id.Word_Compound
      else if token_type = Id.KW_Bang ∨
              token_type = Id.Lit_DRightBracket then token_type
      else
        let token_kind := LookupKind token_type
        if token_kind = Kind.BoolUnary ∨
           token_kind = Kind.BoolBinary then token_type
        else Id.Word_Compound
    | _ => Id.Word_Compound
  | .TokenWord t => t.id

/-- The loop of `CompoundWord.EvalStatic`: concatenate each part's
static value, remembering whether any part was quoted; on the first
failing part return `(False, '', quoted-so-far)`. -/
def CompoundEvalStaticLoop : List WordPart → String → Bool →
    Except Unit (Bool × String × Bool)
  | [], ret, quoted => .ok (true, ret, quoted)
  | p :: ps, ret, quoted =>
    match p.EvalStatic with
    | .error e => .error e
    | .ok r =>
      if r.1 then CompoundEvalStaticLoop ps (ret ++ r.2.1) (quoted || r.2.2)
      else .ok (false, "", quoted)

/-- `CompoundWord.EvalStatic` on the word's part list. -/
def CompoundWord.EvalStatic (parts : List WordPart) :
    Except Unit (Bool × String × Bool) :=
  CompoundEvalStaticLoop parts "" false

/-- `Word.EvalStatic`: defined on `CompoundWord`; a `TokenWord` has no
such method (Python raises `AttributeError`, the `.error` case). -/
def Word.EvalStatic : Word → Except Unit (Bool × String × Bool)
  | .CompoundWord parts => CompoundWord.EvalStatic parts
  | .TokenWord _ => .error ()

/-- `CompoundWord.HasArrayPart`: does any part carry the
`Right_ArrayLiteral` node id? -/
def CompoundWord.HasArrayPart (parts : List WordPart) : Bool :=
  parts.any (fun p => p.nodeId = Id.Right_ArrayLiteral)

/-- `CompoundWord.LooksLikeAssignment`.  Returns `some (name, rhs)` for
the Python pair and `none` for `False`; the Python `if name:` treats
both `False` and the empty string as falsy.  The rhs is the part list of
the freshly built compound word. -/
def CompoundWord.LooksLikeAssignment (parts : List WordPart) :
    Except Unit (Option (String × List WordPart)) :=
  match parts with
  | [] => .ok none
  | p :: rest =>
    match p.VarLikeName with
    | .error e => .error e
    | .ok (some name) =>
      if name = "" then .ok none
      else
        let rhs := if rest.isEmpty then [WordPart.SingleQuotedPart []]
                   else rest
        .ok (some (name, rhs))
    | .ok none => .ok none

/-- `CompoundWord.AsArithVarName`: the empty string unless the word is a
single part, else that part's `ArithVarLikeName` (which may be the
Python `False`, modelled `none`). -/
def CompoundWord.AsArithVarName (parts : List WordPart) : Option String :=
  match parts with
  | [p] => p.ArithVarLikeName
  | _ => some ""

/-! ## Boolean expression parser (`osh/bool_parse.py`) -/

/-- The two lexical modes this component requests from the word reader
(`osh/lex.py` has more, but the boolean parser uses only these). -/
inductive LexMode where
  | DBRACKET
  | BASH_REGEX
deriving DecidableEq

/-- Modelled from the spec: `base.MakeError` (`core/base.py` is not in
the sources).  §7 of the spec describes the records as
`ErrorContext{ message, optional_token, optional_word }`; `args` holds
the unformatted `*args` the call site passes along with a `%`-style
message. -/
structure ErrorContext where
  msg : String
  args : List (Option Word)
  token : Option Token
  word : Option Word

/-- Python `repr` of an already-computed string, as `%` formatting with
`%r` produces it (escaping of special characters inside the string is
not modelled; no claim inspects such a string). -/
def pyRepr (s : String) : String := "\x27" ++ s ++ "\x27"

/-- The expression nodes the boolean parser builds: a bare word
(`return word`), `UnaryExprNode(op_id, word)`,
`BinaryExprNode(op_id, left, right)` and `ast.LogicalNot(child)`.
Python lets `None` flow into child positions (the parser does not check
`ParseTerm`/`ParseExpr`/`ParseFactor` results before wrapping them), so
child nodes are `Option BNode` and operand words `Option Word`. -/
inductive BNode where
  | wordLeaf (w : Word)
  | unary (op : Nat) (child : Option Word)
  | binary (op : Nat) (left right : Option BNode)
  | logicalNot (child : Option BNode)

/-- The ways the parser can terminate abnormally.  `assertNextOne` is
the `assert lex_mode == LexMode.DBRACKET` in `_NextOne`;
`assertLookAhead` is the `raise AssertionError(self.words)` in
`_LookAhead`; `attrError` models calling a method on Python `None`;
`notImplemented` models `EvalStatic` raising inside `ParseFactor`;
`unexpectedToken` is the `raise AssertionError("Unexpected token...")`
and `expectedRParen` the `raise RuntimeError("Expected )...")` in
`ParseFactor`.  `outOfFuel` is a modelling artefact bounding the
recursion depth. -/
inductive Exc where
  | outOfFuel
  | assertNextOne
  | assertLookAhead
  | attrError
  | notImplemented
  | unexpectedToken
  | expectedRParen
deriving DecidableEq

/-- The `BoolParser` object.  `input` models the words the external
`WordParser` will successively yield (an entry `none` is a word-reader
failure, and reading past the end also fails); `wpErrors` is what
`w_parser.Error()` returns; `modes` records the `lex_mode` of each
`ReadWord` call, in order.  The remaining fields are the constructor's
instance attributes. -/
structure BoolParser where
  input : List (Option Word)
  wpErrors : List ErrorContext
  modes : List LexMode
  words : List (Option Word)
  cur_word : Option Word
  op_id : Nat
  b_kind : Nat
  error_stack : List ErrorContext

/-- `BoolParser.__init__(w_parser)`: empty buffer, no current word,
`Id.Undefined_Tok` / `Kind.Undefined`, empty error stack. -/
def BoolParser.init (input : List (Option Word))
    (wpErrors : List ErrorContext) : BoolParser :=
  ⟨input, wpErrors, [], [], none, Id.Undefined_Tok, Kind.Undefined, []⟩

/-- `w_parser.ReadWord(lex_mode)`: yield the next word of the stream (or
a failure), recording the requested lexical mode. -/
def BoolParser.ReadWord (st : BoolParser) (lex_mode : LexMode) :
    Option Word × BoolParser :=
  match st.input with
  | [] => (none, { st with modes := st.modes ++ [lex_mode] })
  | w :: rest =>
    (w, { st with input := rest, modes := st.modes ++ [lex_mode] })

/-- `BoolParser.AddErrorContext(msg, *args, token=None, word=None)`. -/
def BoolParser.AddErrorContext (st : BoolParser) (msg : String)
    (args : List (Option Word)) (word : Option Word) : BoolParser :=
  { st with error_stack := st.error_stack ++ [⟨msg, args, none, word⟩] }

/-- The tail of `_NextOne` shared by all its branches:
`self.op_id = self.cur_word.BoolId(); self.b_kind = LookupKind(self.op_id)`
(`attrError` when `cur_word` is `None`). -/
def BoolParser.NextOneFinish (st : BoolParser) :
    Except Exc (Bool × BoolParser) :=
  match st.cur_word with
  | none => .error .attrError
  | some w =>
    .ok (true, { st with op_id := w.BoolId, b_kind := LookupKind w.BoolId })

/-- `BoolParser._NextOne(lex_mode)`.  With two buffered words the head
is dropped (asserting `DBRACKET` mode); with zero or one a fresh word
is read, a reader failure extending the error stack with the reader's
errors and returning `False`. -/
def BoolParser.NextOne (st : BoolParser) (lex_mode : LexMode) :
    Except Exc (Bool × BoolParser) :=
  let n := st.words.length
  if n = 2 then
    if lex_mode ≠ LexMode.DBRACKET then .error .assertNextOne
    else
      let w1 := st.words.getD 1 none
      BoolParser.NextOneFinish { st with words := [w1], cur_word := w1 }
  else if n = 0 ∨ n = 1 then
    let r := st.ReadWord lex_mode
    match r.1 with
    | none =>
      .ok (false, { r.2 with error_stack := r.2.error_stack ++ r.2.wpErrors })
    | some w =>
      BoolParser.NextOneFinish
        { r.2 with
          words := if n = 0 then r.2.words ++ [some w] else [some w]
          cur_word := some w }
  else
    BoolParser.NextOneFinish st

/-- `BoolParser._Next(lex_mode)`: `_NextOne` in a loop that skips
`Op_Newline` words; fuel bounds the loop. -/
def BoolParser.Next : Nat → BoolParser → LexMode →
    Except Exc (Bool × BoolParser)
  | 0, _, _ => .error .outOfFuel
  | fuel + 1, st, lex_mode =>
    match st.NextOne lex_mode with
    | .error e => .error e
    | .ok (false, st) => .ok (false, st)
    | .ok (true, st) =>
      if st.op_id = Id.Op_Newline then BoolParser.Next fuel st lex_mode
      else .ok (true, st)

/-- `BoolParser.AtEnd()`: is the current word the closing `]]`? -/
def BoolParser.AtEnd (st : BoolParser) : Bool :=
  st.op_id == Id.Lit_DRightBracket

/-- `BoolParser._LookAhead()`: asserts exactly one buffered word, then
reads one more under `DBRACKET` mode and appends it (even a failed read
appends Python `None`). -/
def BoolParser.LookAhead (st : BoolParser) :
    Except Exc (Option Word × BoolParser) :=
  if st.words.length ≠ 1 then .error .assertLookAhead
  else
    let r := st.ReadWord LexMode.DBRACKET
    .ok (r.1, { r.2 with words := r.2.words ++ [r.1] })

mutual

/-- `BoolParser.ParseExpr`: `Term (OR Expr)?` by right recursion.  Note
the source builds `BinaryExprNode(Op_DPipe, left, right)` without
checking `left` or `right` for `None`. -/
def BoolParser.ParseExpr (rp : String → Bool) :
    Nat → BoolParser → Except Exc (Option BNode × BoolParser)
  | 0, _ => .error .outOfFuel
  | fuel + 1, st =>
    match BoolParser.ParseTerm rp fuel st with
    | .error e => .error e
    | .ok (left, st) =>
      if st.op_id = Id.Op_DPipe then
        match BoolParser.Next fuel st LexMode.DBRACKET with
        | .error e => .error e
        | .ok (false, st) => .ok (none, st)
        | .ok (true, st) =>
          match BoolParser.ParseExpr rp fuel st with
          | .error e => .error e
          | .ok (right, st) =>
            .ok (some (BNode.binary Id.Op_DPipe left right), st)
      else .ok (left, st)

/-- `BoolParser.ParseTerm`: `Negated (AND Term)?` by right recursion. -/
def BoolParser.ParseTerm (rp : String → Bool) :
    Nat → BoolParser → Except Exc (Option BNode × BoolParser)
  | 0, _ => .error .outOfFuel
  | fuel + 1, st =>
    match BoolParser.ParseNegatedFactor rp fuel st with
    | .error e => .error e
    | .ok (left, st) =>
      if st.op_id = Id.Op_DAmp then
        match BoolParser.Next fuel st LexMode.DBRACKET with
        | .error e => .error e
        | .ok (false, st) => .ok (none, st)
        | .ok (true, st) =>
          match BoolParser.ParseTerm rp fuel st with
          | .error e => .error e
          | .ok (right, st) =>
            .ok (some (BNode.binary Id.Op_DAmp left right), st)
      else .ok (left, st)

/-- `BoolParser.ParseNegatedFactor`: `'!'? Factor`. -/
def BoolParser.ParseNegatedFactor (rp : String → Bool) :
    Nat → BoolParser → Except Exc (Option BNode × BoolParser)
  | 0, _ => .error .outOfFuel
  | fuel + 1, st =>
    if st.op_id = Id.KW_Bang then
      match BoolParser.Next fuel st LexMode.DBRACKET with
      | .error e => .error e
      | .ok (false, st) => .ok (none, st)
      | .ok (true, st) =>
        match BoolParser.ParseFactor rp fuel st with
        | .error e => .error e
        | .ok (child, st) => .ok (some (BNode.logicalNot child), st)
    else BoolParser.ParseFactor rp fuel st

/-- `BoolParser.ParseFactor`: `WORD | UNARY_OP WORD | WORD BINARY_OP
WORD | '(' Expr ')'`.  The right operand of `=~` is read under
`BASH_REGEX` mode and, when it statically evaluates, validated with
`libc.regex_parse` (the parameter `rp`; `core/libc.py` is external).
The trailing `raise AssertionError` / `raise RuntimeError` of the
source are the `unexpectedToken` / `expectedRParen` exceptions. -/
def BoolParser.ParseFactor (rp : String → Bool) :
    Nat → BoolParser → Except Exc (Option BNode × BoolParser)
  | 0, _ => .error .outOfFuel
  | fuel + 1, st =>
    if st.b_kind = Kind.BoolUnary then
      let op := st.op_id
      match BoolParser.Next fuel st LexMode.DBRACKET with
      | .error e => .error e
      | .ok (false, st) => .ok (none, st)
      | .ok (true, st) =>
        let word := st.cur_word
        match BoolParser.Next fuel st LexMode.DBRACKET with
        | .error e => .error e
        | .ok (false, st) => .ok (none, st)
        | .ok (true, st) => .ok (some (BNode.unary op word), st)
    else if st.b_kind = Kind.Word then
      match st.LookAhead with
      | .error e => .error e
      | .ok (none, _) => .error .attrError
      | .ok (some t2, st) =>
        let t2_op_id := t2.BoolId
        let t2_b_kind := LookupKind t2_op_id
        if t2_b_kind = Kind.BoolBinary ∨ t2_b_kind = Kind.Redir then
          let left := st.cur_word
          match BoolParser.Next fuel st LexMode.DBRACKET with
          | .error e => .error e
          | .ok (false, st) => .ok (none, st)
          | .ok (true, st) =>
            let op := st.op_id
            let is_regex := t2_op_id = Id.BoolBinary_EqualTilde
            match (if is_regex then
                     BoolParser.Next fuel st LexMode.BASH_REGEX
                   else BoolParser.Next fuel st LexMode.DBRACKET) with
            | .error e => .error e
            | .ok (false, st) => .ok (none, st)
            | .ok (true, st) =>
              let right := st.cur_word
              if is_regex then
                match right with
                | none => .error .attrError
                | some rw =>
                  match rw.EvalStatic with
                  | .error _ => .error .notImplemented
                  | .ok es =>
                    if es.1 && !(rp es.2.1) then
                      .ok (none, st.AddErrorContext
                        ("Invalid regex: " ++ pyRepr es.2.1) [] (some rw))
                    else
                      BoolParser.FactorFinish fuel st op left right
              else BoolParser.FactorFinish fuel st op left right
        else
          let word := st.cur_word
          match BoolParser.Next fuel st LexMode.DBRACKET with
          | .error e => .error e
          | .ok (false, st) => .ok (none, st)
          | .ok (true, st) => .ok (word.map BNode.wordLeaf, st)
    else if st.op_id = Id.Op_LParen then
      match BoolParser.Next fuel st LexMode.DBRACKET with
      | .error e => .error e
      | .ok (false, st) => .ok (none, st)
      | .ok (true, st) =>
        match BoolParser.ParseExpr rp fuel st with
        | .error e => .error e
        | .ok (node, st) =>
          if st.op_id ≠ Id.Op_RParen then .error .expectedRParen
          else
            match BoolParser.Next fuel st LexMode.DBRACKET with
            | .error e => .error e
            | .ok (false, st) => .ok (none, st)
            | .ok (true, st) => .ok (node, st)
    else .error .unexpectedToken

/-- The shared tail of the binary branch of `ParseFactor`:
`if not self._Next(): return None; return BinaryExprNode(op, left, right)`. -/
def BoolParser.FactorFinish (fuel : Nat) (st : BoolParser) (op : Nat)
    (left right : Option Word) :
    Except Exc (Option BNode × BoolParser) :=
  match BoolParser.Next fuel st LexMode.DBRACKET with
  | .error e => .error e
  | .ok (false, st) => .ok (none, st)
  | .ok (true, st) =>
    .ok (some (BNode.binary op (left.map BNode.wordLeaf)
      (right.map BNode.wordLeaf)), st)

end

/-- `BoolParser.Parse()`: advance once, parse an expression, then check
the current word is `]]`, pushing "Unexpected extra word" and failing
otherwise.  Note a `None` from `ParseExpr` flows through unchecked when
the terminator is in place. -/
def BoolParser.Parse (rp : String → Bool) (fuel : Nat) (st : BoolParser) :
    Except Exc (Option BNode × BoolParser) :=
  match BoolParser.Next fuel st LexMode.DBRACKET with
  | .error e => .error e
  | .ok (false, st) => .ok (none, st)
  | .ok (true, st) =>
    match BoolParser.ParseExpr rp fuel st with
    | .error e => .error e
    | .ok (node, st) =>
      if !st.AtEnd then
        .ok (none, st.AddErrorContext "Unexpected extra word %r"
          [st.cur_word] st.cur_word)
      else .ok (node, st)

/-! ## Observation helpers and sample words (statement apparatus) -/

/-- Project a parse result to the produced node, the lexical modes the
parser requested from the word reader, and the error stack. -/
def parseObs (res : Except Exc (Option BNode × BoolParser)) :
    Except Exc (Option BNode × List LexMode × List ErrorContext) :=
  match res with
  | .error e => .error e
  | .ok (n, st) => .ok (n, st.modes, st.error_stack)

/-- Project a parse result to the produced node. -/
def parseNode (res : Except Exc (Option BNode × BoolParser)) :
    Except Exc (Option BNode) :=
  match res with
  | .error e => .error e
  | .ok (n, _) => .ok n

/-- The length of the pending-word buffer at the end of a run (0 on an
abnormal termination). -/
def bufferLenOf (res : Except Exc (Option BNode × BoolParser)) : Nat :=
  match res with
  | .error _ => 0
  | .ok (_, st) => st.words.length

/-- A compound word holding one plain literal. -/
def plainWord (s : String) : Word :=
  Word.CompoundWord [WordPart.LiteralPart ⟨Id.Lit_Chars, s⟩]

/-- The compound word for the closing `]]`. -/
def rbWord : Word :=
  Word.CompoundWord [WordPart.LiteralPart ⟨Id.Lit_DRightBracket, "]]"⟩]

/-- The token word for `&&`. -/
def dampWord : Word := Word.TokenWord ⟨Id.Op_DAmp, "&&"⟩

/-- The token word for `||`. -/
def dpipeWord : Word := Word.TokenWord ⟨Id.Op_DPipe, "||"⟩

/-- The compound word for the binary operator `=~`. -/
def equalTildeWord : Word :=
  Word.CompoundWord [WordPart.LiteralPart ⟨Id.BoolBinary_EqualTilde, "=~"⟩]

/-- Goodness of a `_Next`-style result: neither internal assertion
fires, a successful advance leaves exactly one buffered word, and a
reader failure leaves at most one. -/
def GoodNextResult (res : Except Exc (Bool × BoolParser)) : Prop :=
  res ≠ Except.error Exc.assertNextOne ∧
  res ≠ Except.error Exc.assertLookAhead ∧
  (∀ st2, res = Except.ok (true, st2) → st2.words.length = 1) ∧
  (∀ st2, res = Except.ok (false, st2) → st2.words.length ≤ 1)

/-- Goodness of a parse-function result: neither internal assertion
fires and the final buffer holds at most one word. -/
def GoodParseResult (res : Except Exc (Option BNode × BoolParser)) : Prop :=
  res ≠ Except.error Exc.assertNextOne ∧
  res ≠ Except.error Exc.assertLookAhead ∧
  ∀ n st2, res = Except.ok (n, st2) → st2.words.length ≤ 1

/-!
## Theorems

First the bridge between the registration process and its frozen
tables, then the claims.
-/

set_option maxRecDepth 100000

set_option maxHeartbeats 1600000

/-- `_AddKinds` is the composition of its three chunks. -/
theorem AddKinds_decomp (s : IdSpec) :
    AddKinds s = AddKindsC (AddKindsB (AddKindsA s)) := rfl

set_option maxHeartbeats 4000000 in
/-- Stage check: the first chunk applied to the empty registry. -/
theorem stage_A : AddKindsA IdSpec.init = ID_TABLES_A := by decide

set_option maxHeartbeats 4000000 in
/-- Stage check: the second chunk. -/
theorem stage_B : AddKindsB ID_TABLES_A = ID_TABLES_B := by decide

set_option maxHeartbeats 4000000 in
/-- Stage check: the third chunk. -/
theorem stage_C : AddKindsC ID_TABLES_B = ID_TABLES_C := by decide

set_option maxHeartbeats 4000000 in
/-- Stage check: `_AddBoolKinds` on the frozen `_AddKinds` output. -/
theorem stage_D : AddBoolKinds ID_TABLES_C = ID_TABLES := by decide

/-- Running the registration of `core/id_kind.py` produces exactly the
tables written out in `ID_TABLES` (checked by kernel computation in
four stages). -/
theorem ID_SPEC_eq : ID_SPEC = ID_TABLES := by
  have h : ID_SPEC =
      AddBoolKinds (AddKindsC (AddKindsB (AddKindsA IdSpec.init))) := rfl
  rw [h, stage_A, stage_B, stage_C, stage_D]

/-- `LookupKind` reads the frozen `kind_lookup` table. -/
theorem LookupKind_eq (i : Nat) :
    LookupKind i = (dictGet ID_TABLES.kind_lookup i).getD 0 := by
  unfold LookupKind; rw [ID_SPEC_eq]

/-- `IdOf` reads the frozen `id_attrs` table. -/
theorem IdOf_eq (s : String) :
    IdOf s = (dictGet ID_TABLES.id_attrs s).getD 0 := by
  unfold IdOf IdSpec.idOf; rw [ID_SPEC_eq]

/-- `KindOf` reads the frozen `kind_attrs` table. -/
theorem KindOf_eq (s : String) :
    KindOf s = (dictGet ID_TABLES.kind_attrs s).getD 0 := by
  unfold KindOf; rw [ID_SPEC_eq]

/-- The `Id.*` constants are exactly the attribute values the
registration installs on the `Id` class. -/
theorem Id_values :
    IdOf "Undefined_Tok" = Id.Undefined_Tok ∧
    IdOf "Eof_Real" = Id.Eof_Real ∧
    IdOf "Lit_Chars" = Id.Lit_Chars ∧
    IdOf "Lit_VarLike" = Id.Lit_VarLike ∧
    IdOf "Lit_EscapedChar" = Id.Lit_EscapedChar ∧
    IdOf "Lit_DRightBracket" = Id.Lit_DRightBracket ∧
    IdOf "Lit_Tilde" = Id.Lit_Tilde ∧
    IdOf "Lit_ArithVarLike" = Id.Lit_ArithVarLike ∧
    IdOf "Op_Newline" = Id.Op_Newline ∧
    IdOf "Op_DAmp" = Id.Op_DAmp ∧
    IdOf "Op_DPipe" = Id.Op_DPipe ∧
    IdOf "Op_LParen" = Id.Op_LParen ∧
    IdOf "Op_RParen" = Id.Op_RParen ∧
    IdOf "Redir_Less" = Id.Redir_Less ∧
    IdOf "Redir_Great" = Id.Redir_Great ∧
    IdOf "Left_SingleQuote" = Id.Left_SingleQuote ∧
    IdOf "Left_CommandSub" = Id.Left_CommandSub ∧
    IdOf "Left_VarSub" = Id.Left_VarSub ∧
    IdOf "Left_ArithSub" = Id.Left_ArithSub ∧
    IdOf "Left_DoubleQuote" = Id.Left_DoubleQuote ∧
    IdOf "Right_ArrayLiteral" = Id.Right_ArrayLiteral ∧
    IdOf "Word_Compound" = Id.Word_Compound ∧
    IdOf "KW_Bang" = Id.KW_Bang ∧
    IdOf "BoolUnary_z" = Id.BoolUnary_z ∧
    IdOf "BoolBinary_DEqual" = Id.BoolBinary_DEqual ∧
    IdOf "BoolBinary_EqualTilde" = Id.BoolBinary_EqualTilde := by
  simp only [IdOf_eq]
  decide

/-- The `Kind.*` constants are exactly the attribute values the
registration installs on the `Kind` class. -/
theorem Kind_values :
    KindOf "Undefined" = Kind.Undefined ∧
    KindOf "Eof" = Kind.Eof ∧
    KindOf "Lit" = Kind.Lit ∧
    KindOf "Op" = Kind.Op ∧
    KindOf "Redir" = Kind.Redir ∧
    KindOf "Word" = Kind.Word ∧
    KindOf "KW" = Kind.KW ∧
    KindOf "BoolUnary" = Kind.BoolUnary ∧
    KindOf "BoolBinary" = Kind.BoolBinary := by
  simp only [KindOf_eq]
  decide

/-- `Kind(Lit_Chars) = Lit` (numeral form, for rewriting). -/
theorem lk_Lit_Chars : LookupKind 10 = 5 := by
  rw [LookupKind_eq]; decide

/-- `Kind(Lit_DRightBracket) = Lit`. -/
theorem lk_Lit_DRightBracket : LookupKind 17 = 5 := by
  rw [LookupKind_eq]; decide

/-- `Kind(Lit_VarLike) = Lit`. -/
theorem lk_Lit_VarLike : LookupKind 11 = 5 := by
  rw [LookupKind_eq]; decide

/-- `Kind(Lit_ArithVarLike) = Lit`. -/
theorem lk_Lit_ArithVarLike : LookupKind 24 = 5 := by
  rw [LookupKind_eq]; decide

/-- `Kind(Op_Newline) = Op`. -/
theorem lk_Op_Newline : LookupKind 25 = 6 := by
  rw [LookupKind_eq]; decide

/-- `Kind(Op_DAmp) = Op`. -/
theorem lk_Op_DAmp : LookupKind 29 = 6 := by
  rw [LookupKind_eq]; decide

/-- `Kind(Op_DPipe) = Op`. -/
theorem lk_Op_DPipe : LookupKind 30 = 6 := by
  rw [LookupKind_eq]; decide

/-- `Kind(Op_LParen) = Op`. -/
theorem lk_Op_LParen : LookupKind 33 = 6 := by
  rw [LookupKind_eq]; decide

/-- `Kind(Op_RParen) = Op`. -/
theorem lk_Op_RParen : LookupKind 34 = 6 := by
  rw [LookupKind_eq]; decide

/-- `Kind(Word_Compound) = Word`. -/
theorem lk_Word_Compound : LookupKind 163 = 16 := by
  rw [LookupKind_eq]; decide

/-- `Kind(KW_Bang) = KW`. -/
theorem lk_KW_Bang : LookupKind 165 = 17 := by
  rw [LookupKind_eq]; decide

/-- `Kind(BoolUnary_z) = BoolUnary`. -/
theorem lk_BoolUnary_z : LookupKind 184 = 19 := by
  rw [LookupKind_eq]; decide

/-- `Kind(BoolBinary_DEqual) = BoolBinary`. -/
theorem lk_BoolBinary_DEqual : LookupKind 210 = 20 := by
  rw [LookupKind_eq]; decide

/-- `Kind(BoolBinary_EqualTilde) = BoolBinary`. -/
theorem lk_BoolBinary_EqualTilde : LookupKind 212 = 20 := by
  rw [LookupKind_eq]; decide

/-- C5: after registry construction, every registered Id has a unique
integer (one counter increment per registration, shared across Kinds),
`kind_of` maps every registered Id to exactly one Kind, every Kind
assigned is one of the registered Kind attributes (the closed Kind set),
and the Id-to-Kind mapping is total on the registered Ids. -/
theorem registry_ids_unique_kind_total :
    (ID_SPEC.token_names.map Prod.fst).Nodup ∧
    ID_SPEC.token_names.length = ID_SPEC.token_index ∧
    (ID_SPEC.kind_lookup.map Prod.fst).Nodup ∧
    (ID_SPEC.kind_lookup.all fun p =>
      decide (p.2 ∈ ID_SPEC.kind_attrs.map Prod.snd)) = true ∧
    (ID_SPEC.token_names.all fun p =>
      (dictGet ID_SPEC.kind_lookup p.1).isSome) = true := by
  rw [ID_SPEC_eq]
  decide

/-- C6: every Id in Kind `BoolUnary` or `BoolBinary` has exactly one
operand type in `BOOL_OPS`, with the specific assignments of the source
(`-z -n` Str; `-o -v -R` Other; the file-test letters Path; `= == !=
=~` Str; `-ef -nt -ot` Path; `-eq -ne -gt -ge -lt -le` Int), and the
logical connectives `&&`, `||`, `!` map to `Undefined`. -/
theorem bool_operand_types :
    (ID_SPEC.kind_lookup.all fun p =>
      (p.2 != KindOf "BoolUnary" && p.2 != KindOf "BoolBinary") ||
      (dictGet ID_SPEC.bool_ops p.1).isSome) = true ∧
    (ID_SPEC.bool_ops.map Prod.fst).Nodup ∧
    (["z", "n"].all fun c =>
      decide (dictGet ID_SPEC.bool_ops (IdOf ("BoolUnary_" ++ c)) =
        some OperandType.Str)) = true ∧
    (["o", "v", "R"].all fun c =>
      decide (dictGet ID_SPEC.bool_ops (IdOf ("BoolUnary_" ++ c)) =
        some OperandType.Other)) = true ∧
    (UNARY_FILE_CHARS.all fun c =>
      decide (dictGet ID_SPEC.bool_ops (IdOf ("BoolUnary_" ++ c)) =
        some OperandType.Path)) = true ∧
    (["Equal", "DEqual", "NEqual", "EqualTilde"].all fun c =>
      decide (dictGet ID_SPEC.bool_ops (IdOf ("BoolBinary_" ++ c)) =
        some OperandType.Str)) = true ∧
    (["ef", "nt", "ot"].all fun c =>
      decide (dictGet ID_SPEC.bool_ops (IdOf ("BoolBinary_" ++ c)) =
        some OperandType.Path)) = true ∧
    (["eq", "ne", "gt", "ge", "lt", "le"].all fun c =>
      decide (dictGet ID_SPEC.bool_ops (IdOf ("BoolBinary_" ++ c)) =
        some OperandType.Int)) = true ∧
    dictGet ID_SPEC.bool_ops (IdOf "Op_DAmp") = some OperandType.Undefined ∧
    dictGet ID_SPEC.bool_ops (IdOf "Op_DPipe") = some OperandType.Undefined ∧
    dictGet ID_SPEC.bool_ops (IdOf "KW_Bang") = some OperandType.Undefined := by
  simp only [ID_SPEC_eq, IdOf_eq, KindOf_eq]
  decide

/-- C3 counterexample: a compound word whose first part is a literal
`Lit_VarLike` token with value exactly `"="` makes
`LooksLikeAssignment` return `False` (Python — the empty name is falsy),
not a non-false pair as the claim states. -/
theorem looksLikeAssignment_bare_equals :
    CompoundWord.LooksLikeAssignment
      [WordPart.LiteralPart ⟨Id.Lit_VarLike, "="⟩] = .ok none := by
  rfl

/-- C3 (amended): for a compound word whose first part is a literal
`Lit_VarLike` token whose value ends in `=` and whose value minus that
`=` is non-empty, `LooksLikeAssignment` returns the pair of that name
and the remaining parts (or a single empty single-quoted part); the
hypothesis that the name itself does not end in `=` carries to the
returned name. -/
theorem looksLikeAssignment_varlike (t : Token) (rest : List WordPart)
    (hid : t.id = Id.Lit_VarLike)
    (hends : endsWithEq t.val = true)
    (hne : dropLastChar t.val ≠ "")
    (hsingle : endsWithEq (dropLastChar t.val) = false) :
    CompoundWord.LooksLikeAssignment (WordPart.LiteralPart t :: rest) =
      .ok (some (dropLastChar t.val,
        if rest.isEmpty then [WordPart.SingleQuotedPart []] else rest)) ∧
    endsWithEq (dropLastChar t.val) = false := by
  refine ⟨?_, hsingle⟩
  simp only [CompoundWord.LooksLikeAssignment, WordPart.VarLikeName, hid,
    if_pos, hends, if_true, if_neg hne]

/-- Witness for C3 at the word `x=`. -/
theorem looksLikeAssignment_varlike_witness :
    CompoundWord.LooksLikeAssignment
        [WordPart.LiteralPart ⟨Id.Lit_VarLike, "x="⟩] =
      .ok (some (dropLastChar "x=",
        if ([] : List WordPart).isEmpty then [WordPart.SingleQuotedPart []]
        else [])) ∧
    endsWithEq (dropLastChar "x=") = false :=
  looksLikeAssignment_varlike ⟨Id.Lit_VarLike, "x="⟩ [] rfl (by decide)
    (by decide) (by decide)

/-- C8: a word with no array part whose `AsArithVarName` is a non-empty
name is never classified as an assignment by `LooksLikeAssignment`. -/
theorem arith_var_name_not_assignment (parts : List WordPart)
    (harr : CompoundWord.HasArrayPart parts = false)
    (hname : ∃ s, CompoundWord.AsArithVarName parts = some s ∧ s ≠ "") :
    CompoundWord.LooksLikeAssignment parts = .ok none := by
  obtain ⟨s, hs, hne⟩ := hname
  match parts with
  | [] => simp [CompoundWord.AsArithVarName] at hs; exact absurd hs.symm hne
  | _ :: _ :: _ =>
    simp [CompoundWord.AsArithVarName] at hs; exact absurd hs.symm hne
  | [WordPart.LiteralPart t] =>
    unfold CompoundWord.AsArithVarName WordPart.ArithVarLikeName at hs
    by_cases ht : t.id = Id.Lit_ArithVarLike
    · simp only [CompoundWord.LooksLikeAssignment, WordPart.VarLikeName, ht,
        Id.Lit_ArithVarLike, Id.Lit_VarLike]
      norm_num
    · simp only [if_neg ht] at hs
      exact absurd hs (by simp)
  | [WordPart.ArrayLiteralPart ws] =>
    simp [CompoundWord.AsArithVarName, WordPart.ArithVarLikeName] at hs
  | [WordPart.EscapedLiteralPart t] =>
    simp [CompoundWord.AsArithVarName, WordPart.ArithVarLikeName] at hs
  | [WordPart.SingleQuotedPart ts] =>
    simp [CompoundWord.AsArithVarName, WordPart.ArithVarLikeName] at hs
  | [WordPart.DoubleQuotedPart ps] =>
    simp [CompoundWord.AsArithVarName, WordPart.ArithVarLikeName] at hs
  | [WordPart.CommandSubPart t] =>
    simp [CompoundWord.AsArithVarName, WordPart.ArithVarLikeName] at hs
  | [WordPart.VarSubPart n] =>
    simp [CompoundWord.AsArithVarName, WordPart.ArithVarLikeName] at hs
  | [WordPart.TildeSubPart p] =>
    simp [CompoundWord.AsArithVarName, WordPart.ArithVarLikeName] at hs
  | [WordPart.ArithSubPart] =>
    simp [CompoundWord.AsArithVarName, WordPart.ArithVarLikeName] at hs

/-- Witness for C8 at the word `i` (a `Lit_ArithVarLike` literal). -/
theorem arith_var_name_not_assignment_witness :
    CompoundWord.LooksLikeAssignment
      [WordPart.LiteralPart ⟨Id.Lit_ArithVarLike, "i"⟩] = .ok none :=
  arith_var_name_not_assignment
    [WordPart.LiteralPart ⟨Id.Lit_ArithVarLike, "i"⟩]
    (by decide) ⟨"i", rfl, by decide⟩

/-- C4: `BoolId` returns the single literal part's token Id exactly
under the claimed conditions (one part, literal, defined Id, Id in Kind
`BoolUnary`/`BoolBinary` or equal to `KW_Bang`/`Lit_DRightBracket`),
and `Word_Compound` in every other case.  The words are restricted to
registered token Ids (spec invariant 2), where the embedding agrees
with the Python dict lookup. -/
theorem boolId_characterization (parts : List WordPart)
    (hreg : (parts.all fun p =>
       (dictGet ID_SPEC.kind_lookup p.LiteralId).isSome) = true) :
    (∀ t, parts = [WordPart.LiteralPart t] →
       t.id ≠ Id.Undefined_Tok →
       (LookupKind t.id = Kind.BoolUnary ∨ LookupKind t.id = Kind.BoolBinary ∨
        t.id = Id.KW_Bang ∨ t.id = Id.Lit_DRightBracket) →
       Word.BoolId (Word.CompoundWord parts) = t.id) ∧
    ((¬ ∃ t, parts = [WordPart.LiteralPart t] ∧ t.id ≠ Id.Undefined_Tok ∧
        (LookupKind t.id = Kind.BoolUnary ∨ LookupKind t.id = Kind.BoolBinary ∨
         t.id = Id.KW_Bang ∨ t.id = Id.Lit_DRightBracket)) →
       Word.BoolId (Word.CompoundWord parts) = Id.Word_Compound) := by
  constructor
  · intro t ht h1 h2
    subst ht
    simp only [Word.BoolId, WordPart.LiteralId]
    rw [if_neg h1]
    by_cases hb : t.id = Id.KW_Bang ∨ t.id = Id.Lit_DRightBracket
    · rw [if_pos hb]
    · rw [if_neg hb, if_pos]
      rcases h2 with h | h | h | h
      · exact Or.inl h
      · exact Or.inr h
      · exact absurd (Or.inl h) hb
      · exact absurd (Or.inr h) hb
  · intro hn
    match parts with
    | [] => rfl
    | _ :: _ :: _ => rfl
    | [WordPart.LiteralPart t] =>
      by_cases h1 : t.id = Id.Undefined_Tok
      · simp [Word.BoolId, WordPart.LiteralId, h1]
      · by_cases hb : t.id = Id.KW_Bang ∨ t.id = Id.Lit_DRightBracket
        · exact absurd ⟨t, rfl, h1, by
            rcases hb with h | h
            · exact Or.inr (Or.inr (Or.inl h))
            · exact Or.inr (Or.inr (Or.inr h))⟩ hn
        · by_cases hk : LookupKind t.id = Kind.BoolUnary ∨
              LookupKind t.id = Kind.BoolBinary
          · exact absurd ⟨t, rfl, h1, by
              rcases hk with h | h
              · exact Or.inl h
              · exact Or.inr (Or.inl h)⟩ hn
          · simp only [Word.BoolId, WordPart.LiteralId]
            rw [if_neg h1, if_neg hb, if_neg hk]
    | [WordPart.ArrayLiteralPart ws] =>
      simp [Word.BoolId, WordPart.LiteralId, Id.Undefined_Tok]
    | [WordPart.EscapedLiteralPart t] =>
      simp [Word.BoolId, WordPart.LiteralId, Id.Undefined_Tok]
    | [WordPart.SingleQuotedPart ts] =>
      simp [Word.BoolId, WordPart.LiteralId, Id.Undefined_Tok]
    | [WordPart.DoubleQuotedPart ps] =>
      simp [Word.BoolId, WordPart.LiteralId, Id.Undefined_Tok]
    | [WordPart.CommandSubPart t] =>
      simp [Word.BoolId, WordPart.LiteralId, Id.Undefined_Tok]
    | [WordPart.VarSubPart n] =>
      simp [Word.BoolId, WordPart.LiteralId, Id.Undefined_Tok]
    | [WordPart.TildeSubPart p] =>
      simp [Word.BoolId, WordPart.LiteralId, Id.Undefined_Tok]
    | [WordPart.ArithSubPart] =>
      simp [Word.BoolId, WordPart.LiteralId, Id.Undefined_Tok]

/-- Witness for C4 at the word `!` (a `KW_Bang` literal). -/
theorem boolId_characterization_witness :
    Word.BoolId (Word.CompoundWord [WordPart.LiteralPart ⟨Id.KW_Bang, "!"⟩]) =
      (⟨Id.KW_Bang, "!"⟩ : Token).id :=
  (boolId_characterization [WordPart.LiteralPart ⟨Id.KW_Bang, "!"⟩]
      (by simp only [ID_SPEC_eq]; decide)).1
    ⟨Id.KW_Bang, "!"⟩ rfl (by decide) (Or.inr (Or.inr (Or.inl rfl)))

set_option maxHeartbeats 1600000 in
/-- C1 is a code bug: on a malformed word stream the parser raises
instead of returning `None` with an error pushed.  A stray operator
(`&& ]]`) hits the trailing `raise AssertionError("Unexpected token")`
of `ParseFactor` (marked `TODO: A proper error` in the source), and an
unbalanced parenthesis (`( x ]]`) hits
`raise RuntimeError("Expected )")`; in neither case is an
`ErrorContext` pushed. -/
theorem boolParse_malformed_raises :
    BoolParser.Parse (fun _ => true) 32
      (BoolParser.init [some dampWord, some rbWord] []) =
      .error .unexpectedToken ∧
    BoolParser.Parse (fun _ => true) 32
      (BoolParser.init [some (Word.TokenWord ⟨Id.Op_LParen, "("⟩),
        some (plainWord "x"), some rbWord] []) =
      .error .expectedRParen := by
  constructor <;>
    simp [BoolParser.Parse, BoolParser.Next, BoolParser.NextOne,
      BoolParser.NextOneFinish, BoolParser.ReadWord, BoolParser.init,
      BoolParser.ParseExpr, BoolParser.ParseTerm, BoolParser.ParseNegatedFactor,
      BoolParser.ParseFactor, BoolParser.FactorFinish, BoolParser.LookAhead,
      BoolParser.AtEnd, BoolParser.AddErrorContext, dampWord, rbWord, plainWord,
      Word.BoolId, WordPart.LiteralId,
      Id.Op_DAmp, Id.Op_DPipe, Id.Op_LParen, Id.Op_RParen, Id.Op_Newline,
      Id.KW_Bang, Id.Lit_DRightBracket, Id.Undefined_Tok, Id.Word_Compound,
      Id.Lit_Chars, Id.BoolBinary_EqualTilde,
      Kind.Undefined, Kind.BoolUnary, Kind.BoolBinary, Kind.Word, Kind.Op,
      Kind.Redir, Kind.Lit,
      lk_Lit_Chars, lk_Lit_DRightBracket, lk_Op_DAmp, lk_Op_DPipe,
      lk_Op_LParen, lk_Op_RParen, lk_Word_Compound]

mutual

/-- A part free of array literals never raises from `EvalStatic`. -/
theorem evalStatic_isOk : ∀ (p : WordPart), p.containsArrayLiteral = false →
    ∃ r, p.EvalStatic = .ok r
  | .ArrayLiteralPart ws, h => by
    simp [WordPart.containsArrayLiteral] at h
  | .LiteralPart t, _ => ⟨_, rfl⟩
  | .EscapedLiteralPart t, _ => ⟨_, rfl⟩
  | .SingleQuotedPart toks, _ => ⟨_, rfl⟩
  | .DoubleQuotedPart ps, h => by
    have hh : listContainsArrayLiteral ps = false := by
      simpa [WordPart.containsArrayLiteral] using h
    have := dqEvalStatic_isOk ps "" hh
    simpa [WordPart.EvalStatic] using this
  | .CommandSubPart t, _ => ⟨_, rfl⟩
  | .VarSubPart n, _ => ⟨_, rfl⟩
  | .TildeSubPart pr, _ => ⟨_, rfl⟩
  | .ArithSubPart, _ => ⟨_, rfl⟩

/-- The double-quoted loop never raises on array-free parts. -/
theorem dqEvalStatic_isOk : ∀ (ps : List WordPart) (acc : String),
    listContainsArrayLiteral ps = false →
    ∃ r, DoubleQuotedEvalStatic ps acc = .ok r
  | [], acc, _ => ⟨_, rfl⟩
  | p :: ps, acc, h => by
    have h1 : p.containsArrayLiteral = false := by
      simp [listContainsArrayLiteral] at h; exact h.1
    have h2 : listContainsArrayLiteral ps = false := by
      simp [listContainsArrayLiteral] at h; exact h.2
    obtain ⟨r, hr⟩ := evalStatic_isOk p h1
    by_cases hb : r.1 = true
    · simp only [DoubleQuotedEvalStatic, hr, if_pos hb]
      exact dqEvalStatic_isOk ps (acc ++ r.2.1) h2
    · simp only [DoubleQuotedEvalStatic, hr, if_neg hb]
      exact ⟨_, rfl⟩

end

/-- The compound-word loop yields `ok = false` as soon as any part is a
substitution, on array-free part lists. -/
theorem compoundLoop_sub_fails : ∀ (ps : List WordPart) (acc : String)
    (q : Bool), (ps.all fun p => !p.containsArrayLiteral) = true →
    ps.any WordPart.IsSubst = true →
    ∃ q2, CompoundEvalStaticLoop ps acc q = .ok (false, "", q2)
  | p :: ps, acc, q, hall, hany => by
    have h1 : p.containsArrayLiteral = false := by
      simp [List.all_cons] at hall; exact hall.1
    have h2 : (ps.all fun p => !p.containsArrayLiteral) = true := by
      simp [List.all_cons] at hall
      exact List.all_eq_true.mpr (fun x hx => by
        simpa using hall.2 x hx)
    obtain ⟨r, hr⟩ := evalStatic_isOk p h1
    by_cases hb : r.1 = true
    · have hps : ps.any WordPart.IsSubst = true := by
        obtain ⟨x, hmem, hsub⟩ := List.any_eq_true.mp hany
        rcases List.mem_cons.mp hmem with hx1 | hx1
        · subst hx1
          exfalso
          cases x <;> simp_all [WordPart.IsSubst, WordPart.EvalStatic]
          all_goals rw [← hr] at hb; simp at hb
        · exact List.any_eq_true.mpr ⟨x, hx1, hsub⟩
      obtain ⟨q2, hq2⟩ :=
        compoundLoop_sub_fails ps (acc ++ r.2.1) (q || r.2.2) h2 hps
      exact ⟨q2, by simp only [CompoundEvalStaticLoop, hr, if_pos hb]; exact hq2⟩
    · refine ⟨q, ?_⟩
      simp only [CompoundEvalStaticLoop, hr, if_neg hb]

/-- A literal, single-quoted or escaped part statically evaluates to
exactly its contribution. -/
theorem contribution_evalStatic (p : WordPart) (s : String) (b : Bool)
    (h : staticContribution p = some (s, b)) :
    p.EvalStatic = .ok (true, s, b) := by
  cases p <;> simp_all [staticContribution, WordPart.EvalStatic]

/-- The compound-word loop concatenates the contributions of literal,
single-quoted and escaped parts. -/
theorem compoundLoop_contrib : ∀ (ps : List WordPart) (acc : String)
    (q : Bool), (ps.all fun p => (staticContribution p).isSome) = true →
    CompoundEvalStaticLoop ps acc q =
      .ok (true, acc ++ contribText ps, q || contribQuoted ps)
  | [], acc, q, _ => by
    simp [CompoundEvalStaticLoop, contribText, contribQuoted]
  | p :: ps, acc, q, hall => by
    simp only [List.all_cons, Bool.and_eq_true] at hall
    obtain ⟨s, b, hsb⟩ : ∃ s b, staticContribution p = some (s, b) := by
      rcases Option.isSome_iff_exists.mp hall.1 with ⟨⟨s, b⟩, hx⟩
      exact ⟨s, b, hx⟩
    have heval := contribution_evalStatic p s b hsb
    simp only [CompoundEvalStaticLoop, heval, if_pos]
    rw [compoundLoop_contrib ps (acc ++ s) (q || b) hall.2]
    simp [contribText, contribQuoted, hsb, String.append_assoc, Bool.or_assoc]

/-- C9 (amended): for array-literal-free words, a word containing a
command, var, or arith substitution part statically evaluates to
`ok = false`; a word of literal, single-quoted and escaped parts
evaluates to `ok = true` with the concatenated text, single-quoted and
escaped parts marking `any_quoted`; and `eval_static` of the
single-quoted word `EOF` is `(true, "EOF", true)`. -/
theorem evalStatic_subs_and_literals :
    (∀ parts, (parts.all fun p => !p.containsArrayLiteral) = true →
       parts.any WordPart.IsSubst = true →
       ∃ q, CompoundWord.EvalStatic parts = .ok (false, "", q)) ∧
    (∀ parts, (parts.all fun p => (staticContribution p).isSome) = true →
       CompoundWord.EvalStatic parts =
         .ok (true, contribText parts, contribQuoted parts)) ∧
    CompoundWord.EvalStatic [WordPart.SingleQuotedPart [⟨Id.Lit_Chars, "EOF"⟩]] =
      .ok (true, "EOF", true) := by
  refine ⟨?_, ?_, by rfl⟩
  · intro parts hall hany
    exact compoundLoop_sub_fails parts "" false hall hany
  · intro parts hall
    have := compoundLoop_contrib parts "" false hall
    simpa [CompoundWord.EvalStatic] using this

/-- Witness for C9 at a word holding one var-sub part and at the
literal word `hi`. -/
theorem evalStatic_subs_and_literals_witness :
    (∃ q, CompoundWord.EvalStatic [WordPart.VarSubPart "x"] =
      .ok (false, "", q)) ∧
    CompoundWord.EvalStatic [WordPart.LiteralPart ⟨Id.Lit_Chars, "hi"⟩] =
      .ok (true, contribText [WordPart.LiteralPart ⟨Id.Lit_Chars, "hi"⟩],
        contribQuoted [WordPart.LiteralPart ⟨Id.Lit_Chars, "hi"⟩]) :=
  ⟨evalStatic_subs_and_literals.1 [WordPart.VarSubPart "x"] (by decide)
     (by decide),
   evalStatic_subs_and_literals.2.1 [WordPart.LiteralPart ⟨Id.Lit_Chars, "hi"⟩]
     (by decide)⟩

/-- C9 counterexample: a compound word that contains a command
substitution but whose first part is an array literal makes
`EvalStatic` raise `NotImplementedError` instead of returning
`(false, _, _)`. -/
theorem evalStatic_array_raises :
    CompoundWord.EvalStatic
      [WordPart.ArrayLiteralPart [],
       WordPart.CommandSubPart ⟨Id.Left_CommandSub, "$("⟩] = .error () := by
  rfl

/-- A successful word read into an empty buffer (the numerals are
Word_Compound = 163, Kind Word = 16 and the initial sentinels). -/
theorem next_read_fresh (fuel : Nat) (w : Word) (inp : List (Option Word))
    (wpE errs : List ErrorContext) (modes : List LexMode)
    (hw : w.BoolId = 163) :
    BoolParser.Next (fuel + 1)
      ⟨some w :: inp, wpE, modes, [], none, 1, 0, errs⟩ LexMode.DBRACKET =
    .ok (true, ⟨inp, wpE, modes ++ [LexMode.DBRACKET], [some w], some w,
      163, 16, errs⟩) := by
  simp [BoolParser.Next, BoolParser.NextOne, BoolParser.NextOneFinish,
    BoolParser.ReadWord, hw, Id.Op_Newline, lk_Word_Compound]

/-- A successful word read replacing a single buffered word. -/
theorem next_read_replace (fuel : Nat) (w : Word) (b0 : Option Word)
    (inp : List (Option Word)) (wpE errs : List ErrorContext)
    (modes : List LexMode) (cw : Option Word) (op bk : Nat)
    (hw : w.BoolId = 163) :
    BoolParser.Next (fuel + 1)
      ⟨some w :: inp, wpE, modes, [b0], cw, op, bk, errs⟩ LexMode.DBRACKET =
    .ok (true, ⟨inp, wpE, modes ++ [LexMode.DBRACKET], [some w], some w,
      163, 16, errs⟩) := by
  simp [BoolParser.Next, BoolParser.NextOne, BoolParser.NextOneFinish,
    BoolParser.ReadWord, hw, Id.Op_Newline, lk_Word_Compound]

/-- A plain word parses as a leaf factor when the lookahead is one of
`&&` (29), `||` (30) or `]]` (17). -/
theorem negated_factor_leaf (rp : String → Bool) (fuel : Nat) (w t2 : Word)
    (inp : List (Option Word)) (wpE errs : List ErrorContext)
    (modes : List LexMode)
    (ht2 : t2.BoolId = 29 ∨ t2.BoolId = 30 ∨ t2.BoolId = 17) :
    BoolParser.ParseNegatedFactor rp (fuel + 3)
      ⟨some t2 :: inp, wpE, modes, [some w], some w, 163, 16, errs⟩ =
    .ok (some (BNode.wordLeaf w),
      ⟨inp, wpE, modes ++ [LexMode.DBRACKET], [some t2], some t2, t2.BoolId,
       LookupKind t2.BoolId, errs⟩) := by
  rcases ht2 with hid | hid | hid <;>
    simp [BoolParser.ParseNegatedFactor, BoolParser.ParseFactor,
      BoolParser.LookAhead, BoolParser.ReadWord, BoolParser.Next,
      BoolParser.NextOne, BoolParser.NextOneFinish, hid,
      Id.Word_Compound, Id.Op_DAmp, Id.Op_DPipe, Id.Lit_DRightBracket,
      Id.KW_Bang, Id.Op_Newline, Id.Op_LParen, Id.BoolBinary_EqualTilde,
      Kind.Word, Kind.Op, Kind.Lit, Kind.BoolUnary, Kind.BoolBinary,
      Kind.Redir, lk_Op_DAmp, lk_Op_DPipe, lk_Lit_DRightBracket]

/-- C7: chained `&&` and chained `||` parse right-leaning, and `&&`
binds tighter than `||`: `a OP b OP c` yields
`Binary(OP, a, Binary(OP, b, c))` and `a || b && c` yields
`Binary(DPipe, a, Binary(DAmp, b, c))`. -/
theorem chained_logical_right_leaning (rp : String → Bool) (w1 w2 w3 : Word)
    (h1 : w1.BoolId = Id.Word_Compound)
    (h2 : w2.BoolId = Id.Word_Compound)
    (h3 : w3.BoolId = Id.Word_Compound) :
    parseNode (BoolParser.Parse rp 32 (BoolParser.init
        [some w1, some dampWord, some w2, some dampWord, some w3, some rbWord]
        [])) =
      .ok (some (BNode.binary Id.Op_DAmp (some (BNode.wordLeaf w1))
        (some (BNode.binary Id.Op_DAmp (some (BNode.wordLeaf w2))
          (some (BNode.wordLeaf w3)))))) ∧
    parseNode (BoolParser.Parse rp 32 (BoolParser.init
        [some w1, some dpipeWord, some w2, some dpipeWord, some w3,
         some rbWord] [])) =
      .ok (some (BNode.binary Id.Op_DPipe (some (BNode.wordLeaf w1))
        (some (BNode.binary Id.Op_DPipe (some (BNode.wordLeaf w2))
          (some (BNode.wordLeaf w3)))))) ∧
    parseNode (BoolParser.Parse rp 32 (BoolParser.init
        [some w1, some dpipeWord, some w2, some dampWord, some w3,
         some rbWord] [])) =
      .ok (some (BNode.binary Id.Op_DPipe (some (BNode.wordLeaf w1))
        (some (BNode.binary Id.Op_DAmp (some (BNode.wordLeaf w2))
          (some (BNode.wordLeaf w3)))))) := by
  have h1n : w1.BoolId = 163 := h1
  have h2n : w2.BoolId = 163 := h2
  have h3n : w3.BoolId = 163 := h3
  have hd : Word.BoolId dampWord = 29 := rfl
  have hp : Word.BoolId dpipeWord = 30 := rfl
  have hr : Word.BoolId rbWord = 17 := by
    simp [rbWord, Word.BoolId, WordPart.LiteralId, Id.Lit_DRightBracket,
      Id.Undefined_Tok, Id.KW_Bang]
  refine ⟨?_, ?_, ?_⟩ <;>
    simp [BoolParser.Parse, BoolParser.init, BoolParser.ParseExpr,
      BoolParser.ParseTerm, BoolParser.AtEnd, parseNode,
      next_read_fresh _ _ _ _ _ _ h1n,
      negated_factor_leaf rp _ _ _ _ _ _ _ (Or.inl hd),
      negated_factor_leaf rp _ _ _ _ _ _ _ (Or.inr (Or.inl hp)),
      negated_factor_leaf rp _ _ _ _ _ _ _ (Or.inr (Or.inr hr)),
      next_read_replace _ _ _ _ _ _ _ _ _ _ h2n,
      next_read_replace _ _ _ _ _ _ _ _ _ _ h3n,
      hd, hp, hr, lk_Op_DAmp, lk_Op_DPipe, lk_Lit_DRightBracket,
      Id.Op_DAmp, Id.Op_DPipe, Id.Lit_DRightBracket, Id.Word_Compound,
      Id.Undefined_Tok, Id.KW_Bang, Kind.Undefined]

/-- Witness for C7 at the words `a`, `b`, `c`. -/
theorem chained_logical_right_leaning_witness :
    parseNode (BoolParser.Parse (fun _ => true) 32 (BoolParser.init
        [some (plainWord "a"), some dampWord, some (plainWord "b"),
         some dampWord, some (plainWord "c"), some rbWord] [])) =
      .ok (some (BNode.binary Id.Op_DAmp
        (some (BNode.wordLeaf (plainWord "a")))
        (some (BNode.binary Id.Op_DAmp
          (some (BNode.wordLeaf (plainWord "b")))
          (some (BNode.wordLeaf (plainWord "c"))))))) :=
  (chained_logical_right_leaning (fun _ => true)
    (plainWord "a") (plainWord "b") (plainWord "c")
    (by simp [plainWord, Word.BoolId, WordPart.LiteralId, Id.Lit_Chars,
      Id.Undefined_Tok, Id.KW_Bang, Id.Lit_DRightBracket, Id.Word_Compound,
      Kind.BoolUnary, Kind.BoolBinary, lk_Lit_Chars])
    (by simp [plainWord, Word.BoolId, WordPart.LiteralId, Id.Lit_Chars,
      Id.Undefined_Tok, Id.KW_Bang, Id.Lit_DRightBracket, Id.Word_Compound,
      Kind.BoolUnary, Kind.BoolBinary, lk_Lit_Chars])
    (by simp [plainWord, Word.BoolId, WordPart.LiteralId, Id.Lit_Chars,
      Id.Undefined_Tok, Id.KW_Bang, Id.Lit_DRightBracket, Id.Word_Compound,
      Kind.BoolUnary, Kind.BoolBinary, lk_Lit_Chars])).1


set_option maxHeartbeats 3200000 in
/-- C2: with a binary operator recognized as `BoolBinary_EqualTilde`,
the right operand is read under `BASH_REGEX` mode while every other
read uses `DBRACKET`; when the right operand statically evaluates and
the regex parser rejects the result, an "Invalid regex" error is pushed
first on the error stack and `Parse` returns `None`; when static
evaluation fails (`ok = false`), no validation happens and the
`Binary` node is built whatever `regex_parse` would say. -/
theorem equal_tilde_regex_mode (rp : String → Bool) (l op r rb : Word)
    (hl : l.BoolId = Id.Word_Compound)
    (hop : op.BoolId = Id.BoolBinary_EqualTilde)
    (hr : r.BoolId = Id.Word_Compound)
    (hrb : rb.BoolId = Id.Lit_DRightBracket) :
    (∀ s q, r.EvalStatic = .ok (true, s, q) → rp s = true →
      parseObs (BoolParser.Parse rp 10 (BoolParser.init
          [some l, some op, some r, some rb] [])) =
        .ok (some (BNode.binary Id.BoolBinary_EqualTilde
            (some (BNode.wordLeaf l)) (some (BNode.wordLeaf r))),
          [LexMode.DBRACKET, LexMode.DBRACKET, LexMode.BASH_REGEX,
           LexMode.DBRACKET], [])) ∧
    (∀ s q, r.EvalStatic = .ok (true, s, q) → rp s = false →
      parseObs (BoolParser.Parse rp 10 (BoolParser.init
          [some l, some op, some r, some rb] [])) =
        .ok (none,
          [LexMode.DBRACKET, LexMode.DBRACKET, LexMode.BASH_REGEX],
          [⟨"Invalid regex: " ++ pyRepr s, [], none, some r⟩,
           ⟨"Unexpected extra word %r", [some r], none, some r⟩])) ∧
    (∀ s q, r.EvalStatic = .ok (false, s, q) →
      parseObs (BoolParser.Parse rp 10 (BoolParser.init
          [some l, some op, some r, some rb] [])) =
        .ok (some (BNode.binary Id.BoolBinary_EqualTilde
            (some (BNode.wordLeaf l)) (some (BNode.wordLeaf r))),
          [LexMode.DBRACKET, LexMode.DBRACKET, LexMode.BASH_REGEX,
           LexMode.DBRACKET], [])) := by
  have hln : l.BoolId = 163 := hl
  have hopn : op.BoolId = 212 := hop
  have hrn : r.BoolId = 163 := hr
  have hrbn : rb.BoolId = 17 := hrb
  refine ⟨?_, ?_, ?_⟩ <;> intro s q hev <;> try intro hrp
  all_goals
    simp [BoolParser.Parse, BoolParser.init, BoolParser.ParseExpr,
      BoolParser.ParseTerm, BoolParser.ParseNegatedFactor,
      BoolParser.ParseFactor, BoolParser.FactorFinish, BoolParser.Next,
      BoolParser.NextOne, BoolParser.NextOneFinish, BoolParser.ReadWord,
      BoolParser.LookAhead, BoolParser.AtEnd, BoolParser.AddErrorContext,
      parseObs, hln, hopn, hrn, hrbn, hev,
      lk_Word_Compound, lk_BoolBinary_EqualTilde, lk_Lit_DRightBracket,
      Id.Word_Compound, Id.BoolBinary_EqualTilde, Id.Lit_DRightBracket,
      Id.Op_DAmp, Id.Op_DPipe, Id.Op_LParen, Id.Op_Newline, Id.KW_Bang,
      Id.Undefined_Tok, Kind.Undefined, Kind.BoolUnary, Kind.BoolBinary,
      Kind.Word, Kind.Redir]
  · simp [hrp]
  · simp [hrp]
set_option maxHeartbeats 3200000 in
/-- Witness for C2 at the stream `x =~ a+ ]]` with an accepting
`regex_parse`. -/
theorem equal_tilde_regex_mode_witness :
    parseObs (BoolParser.Parse (fun _ => true) 10 (BoolParser.init
        [some (plainWord "x"), some equalTildeWord, some (plainWord "a+"),
         some rbWord] [])) =
      .ok (some (BNode.binary Id.BoolBinary_EqualTilde
          (some (BNode.wordLeaf (plainWord "x")))
          (some (BNode.wordLeaf (plainWord "a+")))),
        [LexMode.DBRACKET, LexMode.DBRACKET, LexMode.BASH_REGEX,
         LexMode.DBRACKET], []) :=
  (equal_tilde_regex_mode (fun _ => true) (plainWord "x") equalTildeWord
    (plainWord "a+") rbWord
    (by simp [plainWord, Word.BoolId, WordPart.LiteralId, Id.Lit_Chars,
      Id.Undefined_Tok, Id.KW_Bang, Id.Lit_DRightBracket, Id.Word_Compound,
      Kind.BoolUnary, Kind.BoolBinary, lk_Lit_Chars])
    (by simp [equalTildeWord, Word.BoolId, WordPart.LiteralId,
      Id.BoolBinary_EqualTilde, Id.Undefined_Tok, Id.KW_Bang,
      Id.Lit_DRightBracket, Kind.BoolUnary, Kind.BoolBinary,
      lk_BoolBinary_EqualTilde])
    (by simp [plainWord, Word.BoolId, WordPart.LiteralId, Id.Lit_Chars,
      Id.Undefined_Tok, Id.KW_Bang, Id.Lit_DRightBracket, Id.Word_Compound,
      Kind.BoolUnary, Kind.BoolBinary, lk_Lit_Chars])
    (by simp [rbWord, Word.BoolId, WordPart.LiteralId, Id.Lit_DRightBracket,
      Id.Undefined_Tok, Id.KW_Bang])).1
    "a+" false (by rfl) rfl

theorem errorGood {e : Exc} (h1 : e ≠ Exc.assertNextOne)
    (h2 : e ≠ Exc.assertLookAhead) :
    GoodParseResult (Except.error e) := by
  refine ⟨by simp [h1], by simp [h2], by simp⟩

theorem goodNext_error {res : Except Exc (Bool × BoolParser)} {e : Exc}
    (hg : GoodNextResult res) (heq : res = Except.error e) :
    GoodParseResult (Except.error e) :=
  errorGood (fun hc => hg.1 (by rw [heq, hc])) (fun hc => hg.2.1 (by rw [heq, hc]))

theorem goodParse_error {res : Except Exc (Option BNode × BoolParser)} {e : Exc}
    (hg : GoodParseResult res) (heq : res = Except.error e) :
    GoodParseResult (Except.error e) := heq ▸ hg

theorem okGood {n : Option BNode} {st : BoolParser}
    (h : st.words.length ≤ 1) :
    GoodParseResult (Except.ok (n, st)) := by
  refine ⟨by simp, by simp, ?_⟩
  intro n2 st2 hc
  simp only [Except.ok.injEq, Prod.mk.injEq] at hc
  rw [← hc.2]
  exact h

theorem addErrorContext_words (st : BoolParser) (msg : String)
    (args : List (Option Word)) (word : Option Word) :
    (st.AddErrorContext msg args word).words = st.words := rfl

theorem nextOne_good (st : BoolParser) (mode : LexMode)
    (h : st.words.length ≤ 1 ∨
      (st.words.length = 2 ∧ mode = LexMode.DBRACKET)) :
    GoodNextResult (st.NextOne mode) := by
  obtain ⟨inp, wpE, ms, words, cw, op, bk, errs⟩ := st
  rcases words with _ | ⟨a, _ | ⟨b, rest⟩⟩
  · rcases inp with _ | ⟨w, inp⟩
    · simp [GoodNextResult, BoolParser.NextOne, BoolParser.ReadWord]
    · rcases w with _ | w
      · simp [GoodNextResult, BoolParser.NextOne, BoolParser.ReadWord]
      · simp [GoodNextResult, BoolParser.NextOne, BoolParser.ReadWord,
          BoolParser.NextOneFinish]
  · rcases inp with _ | ⟨w, inp⟩
    · simp [GoodNextResult, BoolParser.NextOne, BoolParser.ReadWord]
    · rcases w with _ | w
      · simp [GoodNextResult, BoolParser.NextOne, BoolParser.ReadWord]
      · simp [GoodNextResult, BoolParser.NextOne, BoolParser.ReadWord,
          BoolParser.NextOneFinish]
  · have hrest : rest = [] ∧ mode = LexMode.DBRACKET := by
      rcases h with h | ⟨h1, h2⟩
      · exfalso
        simp only [List.length_cons] at h
        omega
      · refine ⟨?_, h2⟩
        simp only [List.length_cons] at h1
        have h0 : rest.length = 0 := by omega
        exact List.length_eq_zero.mp h0
    obtain ⟨rfl, rfl⟩ := hrest
    rcases b with _ | w
    · simp [GoodNextResult, BoolParser.NextOne, BoolParser.NextOneFinish]
    · simp [GoodNextResult, BoolParser.NextOne, BoolParser.NextOneFinish]

theorem next_good (fuel : Nat) (st : BoolParser) (mode : LexMode)
    (h : st.words.length ≤ 1 ∨
      (st.words.length = 2 ∧ mode = LexMode.DBRACKET)) :
    GoodNextResult (BoolParser.Next fuel st mode) := by
  induction fuel generalizing st with
  | zero => simp [GoodNextResult, BoolParser.Next]
  | succ fuel ih =>
    have h1 := nextOne_good st mode h
    rw [BoolParser.Next]
    rcases heq : st.NextOne mode with e | ⟨b, st2⟩
    · exact ⟨fun hc => h1.1 (heq.trans hc), fun hc => h1.2.1 (heq.trans hc),
        by simp, by simp⟩
    · rcases b with _ | _
      · refine ⟨by simp, by simp, by simp, ?_⟩
        intro st3 hc
        simp only [Except.ok.injEq, Prod.mk.injEq] at hc
        rw [← hc.2]
        exact h1.2.2.2 st2 heq
      · have hl2 : st2.words.length = 1 := h1.2.2.1 st2 heq
        dsimp only
        by_cases hop : st2.op_id = Id.Op_Newline
        · rw [if_pos hop]
          exact ih st2 (Or.inl hl2.le)
        · rw [if_neg hop]
          refine ⟨by simp, by simp, ?_, by simp⟩
          intro st3 hc
          simp only [Except.ok.injEq, Prod.mk.injEq] at hc
          rw [← hc.2]
          exact hl2

theorem lookAhead_good (st : BoolParser) (h : st.words.length = 1) :
    st.LookAhead ≠ Except.error Exc.assertNextOne ∧
    st.LookAhead ≠ Except.error Exc.assertLookAhead ∧
    ∀ w2 st2, st.LookAhead = Except.ok (w2, st2) → st2.words.length = 2 := by
  obtain ⟨inp, wpE, ms, words, cw, op, bk, errs⟩ := st
  have h1 : words.length = 1 := h
  rcases inp with _ | ⟨w, inp⟩ <;>
    simp [BoolParser.LookAhead, BoolParser.ReadWord, h1]

theorem factorFinish_good (fuel : Nat) (st : BoolParser) (op : Nat)
    (left right : Option Word) (h : st.words.length ≤ 1) :
    GoodParseResult (BoolParser.FactorFinish fuel st op left right) := by
  have hn := next_good fuel st LexMode.DBRACKET (Or.inl h)
  rw [BoolParser.FactorFinish]
  rcases heq : BoolParser.Next fuel st LexMode.DBRACKET with e | ⟨b, st2⟩
  · exact goodNext_error hn heq
  · rcases b with _ | _
    · exact okGood (hn.2.2.2 st2 heq)
    · exact okGood (hn.2.2.1 st2 heq).le

theorem parse_funs_good (fuel : Nat) :
    ∀ (rp : String → Bool) (st : BoolParser), st.words.length = 1 →
      GoodParseResult (BoolParser.ParseExpr rp fuel st) ∧
      GoodParseResult (BoolParser.ParseTerm rp fuel st) ∧
      GoodParseResult (BoolParser.ParseNegatedFactor rp fuel st) ∧
      GoodParseResult (BoolParser.ParseFactor rp fuel st) := by
  induction fuel with
  | zero =>
    intro rp st h
    refine ⟨?_, ?_, ?_, ?_⟩
    · rw [BoolParser.ParseExpr]
      exact errorGood (by decide) (by decide)
    · rw [BoolParser.ParseTerm]
      exact errorGood (by decide) (by decide)
    · rw [BoolParser.ParseNegatedFactor]
      exact errorGood (by decide) (by decide)
    · rw [BoolParser.ParseFactor]
      exact errorGood (by decide) (by decide)
  | succ fuel ih =>
    intro rp st h
    have hfac : GoodParseResult (BoolParser.ParseFactor rp (fuel + 1) st) := by
      simp only [BoolParser.ParseFactor]
      by_cases hbk : st.b_kind = Kind.BoolUnary
      · rw [if_pos hbk]
        have hn1 := next_good fuel st LexMode.DBRACKET (Or.inl h.le)
        rcases h1 : BoolParser.Next fuel st LexMode.DBRACKET with e | ⟨b, st2⟩
        · exact goodNext_error hn1 h1
        · rcases b with _ | _
          · exact okGood (hn1.2.2.2 st2 h1)
          · have hl2 := hn1.2.2.1 st2 h1
            dsimp only
            have hn2 := next_good fuel st2 LexMode.DBRACKET (Or.inl hl2.le)
            rcases h2 : BoolParser.Next fuel st2 LexMode.DBRACKET with e | ⟨b, st3⟩
            · exact goodNext_error hn2 h2
            · rcases b with _ | _
              · exact okGood (hn2.2.2.2 st3 h2)
              · exact okGood (hn2.2.2.1 st3 h2).le
      · rw [if_neg hbk]
        by_cases hbw : st.b_kind = Kind.Word
        · rw [if_pos hbw]
          have hla := lookAhead_good st h
          rcases hle : st.LookAhead with e | ⟨w2, st2⟩
          · exact errorGood (fun hc => hla.1 (by rw [hle, hc]))
              (fun hc => hla.2.1 (by rw [hle, hc]))
          · have hl2 : st2.words.length = 2 := hla.2.2 w2 st2 hle
            rcases w2 with _ | t2
            · exact errorGood (by decide) (by decide)
            · dsimp only
              by_cases hkind : LookupKind t2.BoolId = Kind.BoolBinary ∨
                  LookupKind t2.BoolId = Kind.Redir
              · rw [if_pos hkind]
                have hn1 := next_good fuel st2 LexMode.DBRACKET (Or.inr ⟨hl2, rfl⟩)
                rcases h1 : BoolParser.Next fuel st2 LexMode.DBRACKET with e | ⟨b, st3⟩
                · exact goodNext_error hn1 h1
                · rcases b with _ | _
                  · exact okGood (hn1.2.2.2 st3 h1)
                  · have hl3 := hn1.2.2.1 st3 h1
                    dsimp only
                    by_cases hreg : t2.BoolId = Id.BoolBinary_EqualTilde
                    · rw [if_pos hreg]
                      have hn2 := next_good fuel st3 LexMode.BASH_REGEX (Or.inl hl3.le)
                      rcases h2 : BoolParser.Next fuel st3 LexMode.BASH_REGEX with e | ⟨b, st4⟩
                      · exact goodNext_error hn2 h2
                      · rcases b with _ | _
                        · exact okGood (hn2.2.2.2 st4 h2)
                        · have hl4 := hn2.2.2.1 st4 h2
                          dsimp only
                          rw [if_pos hreg]
                          rcases hcw : st4.cur_word with _ | rw4
                          · exact errorGood (by decide) (by decide)
                          · dsimp only
                            rcases hev : rw4.EvalStatic with e | es
                            · exact errorGood (by decide) (by decide)
                            · dsimp only
                              by_cases hrp : (es.1 && !(rp es.2.1)) = true
                              · rw [if_pos hrp]
                                refine okGood ?_
                                rw [addErrorContext_words]
                                exact hl4.le
                              · rw [if_neg hrp]
                                exact factorFinish_good fuel st4 _ _ _ hl4.le
                    · rw [if_neg hreg]
                      have hn2 := next_good fuel st3 LexMode.DBRACKET (Or.inl hl3.le)
                      rcases h2 : BoolParser.Next fuel st3 LexMode.DBRACKET with e | ⟨b, st4⟩
                      · exact goodNext_error hn2 h2
                      · rcases b with _ | _
                        · exact okGood (hn2.2.2.2 st4 h2)
                        · have hl4 := hn2.2.2.1 st4 h2
                          dsimp only
                          rw [if_neg hreg]
                          exact factorFinish_good fuel st4 _ _ _ hl4.le
              · rw [if_neg hkind]
                have hn1 := next_good fuel st2 LexMode.DBRACKET (Or.inr ⟨hl2, rfl⟩)
                rcases h1 : BoolParser.Next fuel st2 LexMode.DBRACKET with e | ⟨b, st3⟩
                · exact goodNext_error hn1 h1
                · rcases b with _ | _
                  · exact okGood (hn1.2.2.2 st3 h1)
                  · exact okGood (hn1.2.2.1 st3 h1).le
        · rw [if_neg hbw]
          by_cases hlp : st.op_id = Id.Op_LParen
          · rw [if_pos hlp]
            have hn1 := next_good fuel st LexMode.DBRACKET (Or.inl h.le)
            rcases h1 : BoolParser.Next fuel st LexMode.DBRACKET with e | ⟨b, st2⟩
            · exact goodNext_error hn1 h1
            · rcases b with _ | _
              · exact okGood (hn1.2.2.2 st2 h1)
              · have hl2 := hn1.2.2.1 st2 h1
                dsimp only
                have hpe := (ih rp st2 hl2).1
                rcases h2 : BoolParser.ParseExpr rp fuel st2 with e | ⟨node, st3⟩
                · exact goodParse_error hpe h2
                · have hl3 := hpe.2.2 node st3 h2
                  dsimp only
                  by_cases hrpn : st3.op_id ≠ Id.Op_RParen
                  · rw [if_pos hrpn]
                    exact errorGood (by decide) (by decide)
                  · rw [if_neg hrpn]
                    have hn2 := next_good fuel st3 LexMode.DBRACKET (Or.inl hl3)
                    rcases h3 : BoolParser.Next fuel st3 LexMode.DBRACKET with e | ⟨b, st4⟩
                    · exact goodNext_error hn2 h3
                    · rcases b with _ | _
                      · exact okGood (hn2.2.2.2 st4 h3)
                      · exact okGood (hn2.2.2.1 st4 h3).le
          · rw [if_neg hlp]
            exact errorGood (by decide) (by decide)
    have hneg : GoodParseResult (BoolParser.ParseNegatedFactor rp (fuel + 1) st) := by
      simp only [BoolParser.ParseNegatedFactor]
      by_cases hbang : st.op_id = Id.KW_Bang
      · rw [if_pos hbang]
        have hn1 := next_good fuel st LexMode.DBRACKET (Or.inl h.le)
        rcases h1 : BoolParser.Next fuel st LexMode.DBRACKET with e | ⟨b, st2⟩
        · exact goodNext_error hn1 h1
        · rcases b with _ | _
          · exact okGood (hn1.2.2.2 st2 h1)
          · have hl2 := hn1.2.2.1 st2 h1
            dsimp only
            have hpf := (ih rp st2 hl2).2.2.2
            rcases h2 : BoolParser.ParseFactor rp fuel st2 with e | ⟨child, st3⟩
            · exact goodParse_error hpf h2
            · exact okGood (hpf.2.2 child st3 h2)
      · rw [if_neg hbang]
        exact (ih rp st h).2.2.2
    have hterm : GoodParseResult (BoolParser.ParseTerm rp (fuel + 1) st) := by
      simp only [BoolParser.ParseTerm]
      have hnf := (ih rp st h).2.2.1
      rcases h1 : BoolParser.ParseNegatedFactor rp fuel st with e | ⟨left, st2⟩
      · exact goodParse_error hnf h1
      · have hl2 := hnf.2.2 left st2 h1
        dsimp only
        by_cases hop : st2.op_id = Id.Op_DAmp
        · rw [if_pos hop]
          have hn1 := next_good fuel st2 LexMode.DBRACKET (Or.inl hl2)
          rcases h2 : BoolParser.Next fuel st2 LexMode.DBRACKET with e | ⟨b, st3⟩
          · exact goodNext_error hn1 h2
          · rcases b with _ | _
            · exact okGood (hn1.2.2.2 st3 h2)
            · have hl3 := hn1.2.2.1 st3 h2
              dsimp only
              have hpt := (ih rp st3 hl3).2.1
              rcases h3 : BoolParser.ParseTerm rp fuel st3 with e | ⟨right, st4⟩
              · exact goodParse_error hpt h3
              · exact okGood (hpt.2.2 right st4 h3)
        · rw [if_neg hop]
          exact okGood hl2
    have hexpr : GoodParseResult (BoolParser.ParseExpr rp (fuel + 1) st) := by
      simp only [BoolParser.ParseExpr]
      have hnf := (ih rp st h).2.1
      rcases h1 : BoolParser.ParseTerm rp fuel st with e | ⟨left, st2⟩
      · exact goodParse_error hnf h1
      · have hl2 := hnf.2.2 left st2 h1
        dsimp only
        by_cases hop : st2.op_id = Id.Op_DPipe
        · rw [if_pos hop]
          have hn1 := next_good fuel st2 LexMode.DBRACKET (Or.inl hl2)
          rcases h2 : BoolParser.Next fuel st2 LexMode.DBRACKET with e | ⟨b, st3⟩
          · exact goodNext_error hn1 h2
          · rcases b with _ | _
            · exact okGood (hn1.2.2.2 st3 h2)
            · have hl3 := hn1.2.2.1 st3 h2
              dsimp only
              have hpe := (ih rp st3 hl3).1
              rcases h3 : BoolParser.ParseExpr rp fuel st3 with e | ⟨right, st4⟩
              · exact goodParse_error hpe h3
              · exact okGood (hpe.2.2 right st4 h3)
        · rw [if_neg hop]
          exact okGood hl2
    exact ⟨hexpr, hterm, hneg, hfac⟩

theorem parse_good (rp : String → Bool) (fuel : Nat) (st : BoolParser)
    (h : st.words.length ≤ 1) :
    GoodParseResult (BoolParser.Parse rp fuel st) := by
  rw [BoolParser.Parse]
  have hn := next_good fuel st LexMode.DBRACKET (Or.inl h)
  rcases h1 : BoolParser.Next fuel st LexMode.DBRACKET with e | ⟨b, st2⟩
  · exact goodNext_error hn h1
  · rcases b with _ | _
    · exact okGood (hn.2.2.2 st2 h1)
    · have hl2 := hn.2.2.1 st2 h1
      dsimp only
      have hpe := (parse_funs_good fuel rp st2 hl2).1
      rcases h2 : BoolParser.ParseExpr rp fuel st2 with e | ⟨node, st3⟩
      · exact goodParse_error hpe h2
      · have hl3 := hpe.2.2 node st3 h2
        dsimp only
        by_cases hend : (!st3.AtEnd) = true
        · rw [if_pos hend]
          refine okGood ?_
          rw [addErrorContext_words]
          exact hl3
        · rw [if_neg hend]
          exact okGood hl3

/-- C10: In any run of `Parse` from a fresh parser the two internal
buffer assertions never fire — `_NextOne` never drains a two-word
buffer outside `DBRACKET` mode (so in particular the `BASH_REGEX` read
of the right operand of a regex match happens with at most one word
buffered) and `_LookAhead` is only reached with exactly one buffered
word — and the pending-word buffer finishes with at most two words. -/
theorem lookahead_buffer_discipline (rp : String → Bool) (fuel : Nat)
    (input : List (Option Word)) (wpErrors : List ErrorContext) :
    BoolParser.Parse rp fuel (BoolParser.init input wpErrors) ≠
      Except.error Exc.assertNextOne ∧
    BoolParser.Parse rp fuel (BoolParser.init input wpErrors) ≠
      Except.error Exc.assertLookAhead ∧
    bufferLenOf (BoolParser.Parse rp fuel (BoolParser.init input wpErrors)) ≤ 2 := by
  have hg := parse_good rp fuel (BoolParser.init input wpErrors)
    (by simp [BoolParser.init])
  refine ⟨hg.1, hg.2.1, ?_⟩
  rcases hres : BoolParser.Parse rp fuel (BoolParser.init input wpErrors) with e | ⟨n, st⟩
  · simp [bufferLenOf]
  · have hlen := hg.2.2 n st hres
    simp only [bufferLenOf]
    omega

end Osh
